import Mathlib

/-!
Verification of the Huntable-CTI-Cloud ingestion pipeline.

This file gives a shallow embedding, in Lean 4, of the core services of the
repository (hunt scoring, rule-based classification fallback, content
fingerprinting, content chunking, web-page article extraction, and the
scraper orchestrator's per-source polling step), and proves properties of
those embeddings.

Modelling conventions:
  * Python `float` arithmetic is modelled exactly over `ℚ`; `round(x, 1)`
    is modelled as round-half-to-even of `10*x` divided by `10`.
  * Python `datetime` instants are modelled as `Int` epoch seconds.
  * `str.lower`, `str.upper` and `str.strip` are modelled at the ASCII
    level (the keyword tables and feeds handled by the code are ASCII).
  * Calls into external libraries (the `re` module's keyword matching, the
    CSS-selector engine, date parsing, URL joining, network fetches) are
    abstracted as explicit function parameters; everything the repository
    itself computes is translated directly from the source.
-/

/-! ## Python primitive modelling -/

/-- ASCII model of lowering one character (Python `str.lower`). -/
def pyLowerChar (c : Char) : Char :=
  if 65 ≤ c.toNat ∧ c.toNat ≤ 90 then Char.ofNat (c.toNat + 32) else c

/-- ASCII model of uppering one character (Python `str.upper`). -/
def pyUpperChar (c : Char) : Char :=
  if 97 ≤ c.toNat ∧ c.toNat ≤ 122 then Char.ofNat (c.toNat - 32) else c

/-- Python `str.lower` (ASCII model). -/
def pyLower (s : String) : String := String.mk (s.data.map pyLowerChar)

/-- Python `str.upper` (ASCII model). -/
def pyUpper (s : String) : String := String.mk (s.data.map pyUpperChar)

/-- Python whitespace class (ASCII part of `str.split` / `str.strip` / `\s`). -/
def pyIsSpace (c : Char) : Bool :=
  c = ' ' ∨ c = '\t' ∨ c = '\n' ∨ c = '\x0b' ∨ c = '\x0c' ∨ c = '\r'

/-- Python `str.strip()` with no argument: remove leading and trailing
whitespace. -/
def pyStrip (s : String) : String :=
  String.mk (((s.data.dropWhile (fun c => pyIsSpace c)).reverse.dropWhile
    (fun c => pyIsSpace c)).reverse)

/-- Helper scan for `pyWords`: `acc` holds the reversed current word. -/
def py_words_aux : List Char → List Char → List String
  | [], [] => []
  | [], acc => [String.mk acc.reverse]
  | c :: rest, acc =>
    if pyIsSpace c then
      match acc with
      | [] => py_words_aux rest []
      | _ => String.mk acc.reverse :: py_words_aux rest []
    else py_words_aux rest (c :: acc)

/-- Python `str.split()` with no argument: split on runs of whitespace,
dropping empty pieces. -/
def pyWords (s : String) : List String := py_words_aux s.data []

/-- Round-half-to-even to an integer, the rounding used by Python `round`. -/
def roundHalfEven (q : ℚ) : ℤ :=
  if Int.fract q < 1/2 then ⌊q⌋
  else if 1/2 < Int.fract q then ⌊q⌋ + 1
  else if Even ⌊q⌋ then ⌊q⌋ else ⌊q⌋ + 1

/-- Python `round(x, 1)` modelled over `ℚ`. -/
def pyRound1 (q : ℚ) : ℚ := (roundHalfEven (10 * q) : ℚ) / 10

theorem roundHalfEven_intCast (n : ℤ) : roundHalfEven (n : ℚ) = n := by
  simp [roundHalfEven, Int.fract_intCast]

theorem le_roundHalfEven_floor (q : ℚ) : ⌊q⌋ ≤ roundHalfEven q := by
  unfold roundHalfEven
  split_ifs <;> omega

theorem roundHalfEven_le_floor_add_one (q : ℚ) : roundHalfEven q ≤ ⌊q⌋ + 1 := by
  unfold roundHalfEven
  split_ifs <;> omega

theorem roundHalfEven_mono {q r : ℚ} (h : q ≤ r) :
    roundHalfEven q ≤ roundHalfEven r := by
  rcases lt_or_eq_of_le (Int.floor_le_floor h) with hf | hf
  · calc roundHalfEven q ≤ ⌊q⌋ + 1 := roundHalfEven_le_floor_add_one q
      _ ≤ ⌊r⌋ := by omega
      _ ≤ roundHalfEven r := le_roundHalfEven_floor r
  · have hfr : Int.fract q ≤ Int.fract r := by
      unfold Int.fract
      rw [hf]
      linarith
    unfold roundHalfEven
    rw [hf]
    split_ifs <;> first | omega | linarith

theorem pyRound1_mono {q r : ℚ} (h : q ≤ r) : pyRound1 q ≤ pyRound1 r := by
  unfold pyRound1
  have : roundHalfEven (10 * q) ≤ roundHalfEven (10 * r) :=
    roundHalfEven_mono (by linarith)
  have h10 : ((roundHalfEven (10 * q) : ℚ)) ≤ (roundHalfEven (10 * r) : ℚ) := by
    exact_mod_cast this
  linarith

/-! ## HuntScorer (`src/cti_scraper/services/hunt_scorer.py`)

The five keyword tables of `WINDOWS_MALWARE_KEYWORDS` are transcribed
verbatim from the source, in source order (including the entries that the
source lists twice, e.g. `msiexec.exe` and `New-Object` in the perfect
discriminators).  Python regex matching (`HuntScorer._keyword_matches`,
which delegates to the external `re` module) is abstracted as an oracle
`keyword_matches : String → String → Bool` taking the keyword and the
combined lower-cased text, exactly at the call boundary used by
`score_article`. -/

def perfect_discriminators : List String := [
  "rundll32.exe", "comspec", "msiexec.exe", "wmic.exe", "iex", "findstr.exe",
  "hklm", "appdata", "programdata", "powershell.exe", "wbem",
  ".lnk", "D:\\", "C:\\", ".iso", "<Command>", "MZ",
  "svchost.exe", "-accepteula", "lsass.exe", "WINDIR", "wintmp",
  "\\temp\\", "\\pipe\\", "%WINDIR%", "%wintmp%", "FromBase64String",
  "MemoryStream", "New-Object", "DownloadString", "Defender query",
  "sptth",
  "reg.exe", "winlogon.exe", "conhost.exe", "msiexec.exe", "wscript.exe", "services.exe", "fodhelper",
  "EventCode", "parent-child", "KQL", "2>&1",
  "invoke-mimikatz", "hashdump", "invoke-shellcode", "invoke-eternalblue",
  "%[A-Za-z0-9_]+:~[0-9]+(,[0-9]+)?%",
  "%[A-Za-z0-9_]+:[^=%%]+=[^%]*%",
  "![A-Za-z0-9_]+!",
  "\\bcmd(\\.exe)?\\s*/V(?::[^ \\t/]+)?",
  "\\bset\\s+[A-Za-z0-9_]+\\s*=",
  "\\bcall\\s+(set|%[A-Za-z0-9_]+%|![A-Za-z0-9_]+!)",
  "(%[^%]+%)\x7b4,\x7d",
  "\\bfor\\s+/?[A-Za-z]*\\s+%[A-Za-z]\\s+in\\s*\\(",
  "![A-Za-z0-9_]+:~%[A-Za-z],1!",
  "\\bfor\\s+/L\\s+%[A-Za-z]\\s+in\\s*\\([^)]+\\)",
  "%[A-Za-z0-9_]+:~-[0-9]+%|%[A-Za-z0-9_]+:~[0-9]+%",
  "%[A-Za-z0-9_]+:\\*[^!%]+=!%",
  "[^\\w](s\\^+e\\^*t|s\\^*e\\^+t)[^\\w]",
  "[^\\w](c\\^+a\\^*l\\^*l|c\\^*a\\^+l\\^*l|c\\^*a\\^*l\\^+l)[^\\w]",
  "\\^|\"",
  "%[^%]+%<[^>]*|set\\s+[A-Za-z0-9_]+\\s*=\\s*[^&|>]*\\|",
  "homebrew", "/users/shared/", "chmod 777",
  "tccd", "spctl", "csrutil",
  "xor",
  "tcp://", "CN=", "-ComObject", "Chcp", "tostring", "HKCU", "System32",
  "Hxxp", "Cmd", "8080", "XOR", "User-Agent", "sshd", "Base64",
  "icacls", "InteropServices.Marshal", "selection1:", "dclist", "invoke-",
  "tasklist", "adfind", "-EncodedCommand", "selection_1:", "attrib",
  "ParentImage", "CommandLine",
  "System.IO", "New-Object", "StreamReader", "ByteArray", "127.0.0.1", ">1", "admin$",
  "MpPreference", "Whoami", "C$", "MSBuild", "7z",
  "auditd", "systemd", "xattr", "EndpointSecurity", "osquery",
  "zeek", "dns_query", "ja3",
  "SELECT * FROM"
]

def good_discriminators : List String := [
  "temp", "==", "c:\\windows\\", "Event ID", ".bat", ".ps1",
  "pipe", "::", "[.]", "-->", "currentversion",
  "Monitor", "Executable", "Detection", "Alert on", "Hunt for",
  "Hunting", "Create Detections", "Search Query", "//",
  "http:", "hxxp", "->", ".exe", "--",
  "\\\\", "spawn", "|",
  "mimikatz", "kerberoast", "psexec",
  "mach-o", "plist",
  "osascript", "TCC.db",
  "payload", "sftp", "downloader", "jss",
  "\x7b\x7d", "<>", "[]",
  "win32_", "Httpd", "Int64", "/usr/", "echo", "/tmp/", "/etc/",
  "syslog", "sudo", "cron", "LD_PRELOAD", "launchd",
  "auditlog", "iam", "snort", "proxy", "http_request", "anomaly",
  "linux", "macos", "cloud", "aws", "azure", "network", "ssl",
  "codesign", "cloudtrail", "guardduty", "s3", "ec2", "gcp",
  "suricata", "netflow", "beaconing", "user-agent",
  "process_creation", "reg add", "logsource:", "get-", "selection:",
  "DeviceProcessEvents", "hxxps", "taskkill.exe", "detection:", "DeviceFileEvents",
  "child"
]

def intelligence_indicators : List String := [
  "APT", "threat actor", "attribution", "campaign", "incident",
  "breach", "compromise", "malware family", "IOC", "indicator",
  "TTP", "technique", "observed", "discovered", "detected in wild",
  "real-world", "in the wild", "in-the-wild", "active campaign", "ongoing threat",
  "victim", "targeted", "exploited", "compromised", "infiltrated",
  "intrusion", "beacon", "lateral movement", "persistence", "reconnaissance",
  "exfiltration", "command and control", "c2", "initial access", "privilege escalation",
  "FIN", "TA", "UNC", "APT1", "APT28", "APT29", "Lazarus", "Carbanak",
  "Cozy Bear", "Fancy Bear", "Wizard Spider", "Ryuk", "Maze",
  "ransomware", "data breach", "cyber attack", "espionage",
  "sophisticated attack", "advanced persistent threat",
  "golden-ticket", "silver-ticket"
]

def negative_indicators : List String := [
  "what is", "how to", "guide to", "tutorial", "best practices",
  "statistics", "survey", "report shows", "study reveals",
  "learn more", "read more", "click here", "download now",
  "free trial", "contact us", "get started", "sign up",
  "blog post", "newsletter", "webinar", "training",
  "overview", "introduction", "basics", "fundamentals"
]

def lolbas_executables : List String := [
  "certutil.exe", "cmd.exe", "schtasks.exe", "wmic.exe", "bitsadmin.exe", "ftp.exe", "netsh.exe", "cscript.exe", "mshta.exe",
  "regsvr32.exe", "rundll32.exe", "forfiles.exe", "explorer.exe", "ieexec.exe", "powershell.exe", "conhost.exe", "svchost.exe", "lsass.exe",
  "csrss.exe", "smss.exe", "wininit.exe", "nltest.exe", "odbcconf.exe", "scrobj.dll", "addinutil.exe", "appinstaller.exe", "aspnet_compiler.exe",
  "atbroker.exe", "bash.exe", "certoc.exe", "certreq.exe", "cipher.exe", "cmdkey.exe", "cmdl32.exe", "cmstp.exe", "colorcpl.exe",
  "computerdefaults.exe", "configsecuritypolicy.exe", "control.exe", "csc.exe", "customshellhost.exe", "datasvcutil.exe",
  "desktopimgdownldr.exe", "devicecredentialdeployment.exe", "dfsvc.exe", "diantz.exe", "diskshadow.exe", "dnscmd.exe", "esentutl.exe",
  "eventvwr.exe", "expand.exe", "extexport.exe", "extrac32.exe", "findstr.exe", "finger.exe", "fltmc.exe", "gpscript.exe",
  "replace.exe", "sc.exe", "print.exe", "ssh.exe", "teams.exe", "rdrleakdiag.exe", "ipconfig.exe", "systeminfo.exe",
  "aspnet_com.exe", "acroreer.exe", "change.exe", "configse.exe", "customshell.exe", "datasecutil.exe", "desktopimg.exe",
  "devicescred.exe", "dism.exe", "eudcedit.exe", "export.exe", "finger.exe", "flmc.exe", "fsutil.exe", "gscript.exe", "hh.exe", "imewdbld.exe",
  "ie4uinit.exe", "inetcpl.exe", "installutil.exe", "iscsicpl.exe", "isc.exe", "ldifde.exe", "makecab.exe", "mavinject.exe",
  "microsoft.workflow.exe", "mmc.exe", "mpcmdrun.exe", "msbuild.exe", "msconfig.exe", "msdt.exe", "msedge.exe", "ngen.exe",
  "offlinescanner.exe", "onedrivesta.exe", "pcalua.exe", "pcwrun.exe", "platman.exe", "pnputil.exe", "presentationsettings.exe",
  "print.exe", "printbrm.exe", "prowlaunch.exe", "psr.exe", "query.exe", "rasautou.exe", "rdrleakdiag.exe", "reg.exe", "regasm.exe", "regedit.exe",
  "regini.exe", "register-cim.exe", "replace.exe", "reset.exe", "rpcping.exe", "runschlp.exe", "runonce.exe", "runscripthelper.exe",
  "scriptrunner.exe", "setres.exe", "settingsynchost.exe", "sftp.exe", "syncappvpublishingserver.exe", "tar.exe", "tldinject.exe",
  "tracerpt.exe", "unregmp2.exe", "wbc.exe", "vssadmin.exe", "wab.exe", "wbadmin.exe", "wbemtest.exe", "wfgen.exe", "wfp.exe", "winword.exe",
  "wsreset.exe", "wuzucht.exe", "xwizard.exe", "msedge_proxy.exe", "msedgewebview2.exe", "wsl.exe", "adxpack.dll", "desk.cpl", "ieframe.dll",
  "mshtml.dll", "pcwutil.dll", "photoviewer.dll", "setupapi.dll", "shdocvw.dll", "shell32.dll", "shimgvw.dll", "syssetup.dll", "url.dll",
  "zipfldr.dll", "comsvcs.dll", "acccheckco.dll", "adplus.exe", "agentexecu.exe", "applauncher.exe", "appcert.exe", "appvlp.exe", "bginfo.exe",
  "cdb.exe", "coregen.exe", "createdump.exe", "csi.exe", "defaultpack.exe", "devinit.exe", "devtroubleshoot.exe", "dnx.exe", "dotnet.exe",
  "dpubuild.exe", "dputil.exe", "dump64.exe", "dumpmini.exe", "dxcap.exe", "ecmangen.exe", "excel.exe", "foj.exe", "fsrmgpu.exe", "hltrace.exe",
  "microsoft.notes.exe", "mpiexec.exe", "msaccess.exe", "msdeploy.exe", "msohtmed.exe", "mspub.exe", "mses.exe", "ndsutil.exe", "ntds.exe",
  "openconsole.exe", "pstools.exe", "powerpnt.exe", "procdump.exe", "protocolhandler.exe", "rcsi.exe", "remote.exe", "sqldumper.exe",
  "sqlps.exe", "sqltoolsps.exe", "squirrel.exe", "ta.exe", "teams.exe", "testwindow.exe", "tracker.exe", "update.exe", "vsdiagnostic.exe",
  "vsixinstaller.exe", "visio.exe", "visualuiaver.exe", "vsixlaunch.exe", "vsshadow.exe", "wsgldebugger.exe", "wfhformat.exe", "wic.exe",
  "windbg.exe", "winproj.exe", "xbootmgr.exe", "xtoolmgr.exe", "rdptunnel.exe", "wslg-agent.exe", "wstest_console.exe", "winfile.exe",
  "xsd.exe", "cl_loadas.exe", "cl_mute.exe", "cl_invoca.exe", "launch-vsd.exe", "manage-bde.exe", "pubprn.vbs", "syncappvpu.exe",
  "utilityfunc.exe", "winrm.vbs", "poster.bat"
]

/-- Result dictionary of `HuntScorer.score_article`. -/
structure ScoreResult where
  threat_hunting_score : ℚ
  perfect_keyword_matches : List String
  good_keyword_matches : List String
  lolbas_matches : List String
  intelligence_matches : List String
  negative_matches : List String
deriving DecidableEq

/-- The geometric diminishing-returns score of `score_article`
(`geometric_score` inner function). -/
def geometric_score (n_matches : ℕ) (max_points : ℚ) : ℚ :=
  if n_matches = 0 then 0
  else max_points * (1 - (1/2 : ℚ) ^ n_matches)

/-- The combined lower-cased text searched by `score_article`
(`full_text = f"{title_lower} {summary_lower} {content_lower}"`). -/
def hunt_full_text (title summary : String) (content : Option String) : String :=
  pyLower title ++ " " ++ pyLower summary ++ " " ++ pyLower (content.getD "")

/-- Embedding of `HuntScorer.score_article`.  `keyword_matches` abstracts
`HuntScorer._keyword_matches` (Python `re`-based matching), applied exactly
where the source applies it: once per table entry against `full_text`. -/
def score_article (keyword_matches : String → String → Bool)
    (title summary : String) (content : Option String := none) : ScoreResult :=
  if content.getD "" = "" ∧ summary = "" then
    ⟨0, [], [], [], [], []⟩
  else
    let full_text := hunt_full_text title summary content
    let perfect_matches := perfect_discriminators.filter
      (fun keyword => keyword_matches keyword full_text)
    let good_matches := good_discriminators.filter
      (fun keyword => keyword_matches keyword full_text)
    let lolbas_matches := lolbas_executables.filter
      (fun executable => keyword_matches executable full_text)
    let intelligence_matches := intelligence_indicators.filter
      (fun indicator => keyword_matches indicator full_text)
    let negative_matches := negative_indicators.filter
      (fun negative => keyword_matches negative full_text)
    let perfect_score := geometric_score perfect_matches.length 75
    let lolbas_score := geometric_score lolbas_matches.length 10
    let intelligence_score := geometric_score intelligence_matches.length 10
    let good_score := geometric_score good_matches.length 5
    let negative_penalty := geometric_score negative_matches.length 10
    let threat_hunting_score := max 0 (min (999/10)
      (perfect_score + good_score + lolbas_score + intelligence_score - negative_penalty))
    ⟨pyRound1 threat_hunting_score, perfect_matches, good_matches,
      lolbas_matches, intelligence_matches, negative_matches⟩

/-- The final hunt score as a function of the five per-category match
counts (number of matched table entries). -/
def hunt_score_from_counts (p g l i n : ℕ) : ℚ :=
  pyRound1 (max 0 (min (999/10)
    (geometric_score p 75 + geometric_score g 5 + geometric_score l 10 +
      geometric_score i 10 - geometric_score n 10)))

/-- Spec-side scoring formula, following the claim's words: each category
contributes `category_max * (1 - 0.5 ^ n)` where `n` is the number of
DISTINCT matched keywords of that category, and the returned score is
exactly the sum clamped to `[0, 99.9]` (no rounding).  Used only to compare
against the embedding translated from the source. -/
def dedup_match_count (keyword_matches : String → String → Bool)
    (kws : List String) (text : String) : ℕ :=
  ((kws.filter (fun keyword => keyword_matches keyword text)).dedup).length

def score_article_spec_distinct (keyword_matches : String → String → Bool)
    (title summary : String) (content : Option String := none) : ℚ :=
  if content.getD "" = "" ∧ summary = "" then 0
  else
    let full_text := hunt_full_text title summary content
    max 0 (min (999/10)
      (geometric_score (dedup_match_count keyword_matches perfect_discriminators full_text) 75 +
        geometric_score (dedup_match_count keyword_matches good_discriminators full_text) 5 +
        geometric_score (dedup_match_count keyword_matches lolbas_executables full_text) 10 +
        geometric_score (dedup_match_count keyword_matches intelligence_indicators full_text) 10 -
        geometric_score (dedup_match_count keyword_matches negative_indicators full_text) 10))


/-- Number of matched entries of one keyword table (a filtered length, as
computed by `score_article`; duplicated table entries count once each). -/
def match_count (keyword_matches : String → String → Bool)
    (kws : List String) (text : String) : ℕ :=
  (kws.filter (fun keyword => keyword_matches keyword text)).length

theorem score_article_score_eq (km : String → String → Bool)
    (title summary : String) (content : Option String) :
    (score_article km title summary content).threat_hunting_score =
      if content.getD "" = "" ∧ summary = "" then 0
      else
        hunt_score_from_counts
          (match_count km perfect_discriminators (hunt_full_text title summary content))
          (match_count km good_discriminators (hunt_full_text title summary content))
          (match_count km lolbas_executables (hunt_full_text title summary content))
          (match_count km intelligence_indicators (hunt_full_text title summary content))
          (match_count km negative_indicators (hunt_full_text title summary content)) := by
  unfold score_article hunt_score_from_counts match_count
  split_ifs <;> rfl

theorem geometric_score_nonneg {m : ℚ} (hm : 0 ≤ m) (n : ℕ) :
    0 ≤ geometric_score n m := by
  unfold geometric_score
  split_ifs
  · exact le_refl 0
  · have h1 : (1/2 : ℚ) ^ n ≤ 1 :=
      pow_le_one₀ (by norm_num) (by norm_num)
    have : (0:ℚ) ≤ 1 - (1/2 : ℚ) ^ n := by linarith
    exact mul_nonneg hm this

theorem geometric_score_mono {m : ℚ} (hm : 0 ≤ m) {p p' : ℕ} (h : p ≤ p') :
    geometric_score p m ≤ geometric_score p' m := by
  rcases Nat.eq_zero_or_pos p with hp | hp
  · subst hp
    have h0 : geometric_score 0 m = 0 := by simp [geometric_score]
    rw [h0]
    exact geometric_score_nonneg hm p'
  · have hp' : p' ≠ 0 := by omega
    unfold geometric_score
    rw [if_neg (by omega), if_neg hp']
    have hpow : (1/2 : ℚ) ^ p' ≤ (1/2 : ℚ) ^ p :=
      pow_le_pow_of_le_one (by norm_num) (by norm_num) h
    have : 1 - (1/2 : ℚ) ^ p ≤ 1 - (1/2 : ℚ) ^ p' := by linarith
    exact mul_le_mul_of_nonneg_left this hm

theorem hunt_score_from_counts_mono {p p' : ℕ} (g l i n : ℕ) (h : p ≤ p') :
    hunt_score_from_counts p g l i n ≤ hunt_score_from_counts p' g l i n := by
  unfold hunt_score_from_counts
  apply pyRound1_mono
  apply max_le_max le_rfl
  apply min_le_min le_rfl
  have := geometric_score_mono (m := 75) (by norm_num) h
  linarith

theorem pyRound1_zero : pyRound1 0 = 0 := by
  have h : (10 : ℚ) * 0 = ((0 : ℤ) : ℚ) := by norm_num
  rw [pyRound1, h, roundHalfEven_intCast]
  norm_num

theorem pyRound1_999_div_10 : pyRound1 (999/10) = 999/10 := by
  have h : (10 : ℚ) * (999/10) = ((999 : ℤ) : ℚ) := by norm_num
  rw [pyRound1, h, roundHalfEven_intCast]
  norm_num

theorem hunt_score_from_counts_nonneg (p g l i n : ℕ) :
    0 ≤ hunt_score_from_counts p g l i n := by
  unfold hunt_score_from_counts
  calc (0:ℚ) = pyRound1 0 := pyRound1_zero.symm
    _ ≤ _ := pyRound1_mono (le_max_left 0 _)

theorem hunt_score_from_counts_le (p g l i n : ℕ) :
    hunt_score_from_counts p g l i n ≤ 999/10 := by
  unfold hunt_score_from_counts
  calc pyRound1 _ ≤ pyRound1 (999/10) := by
        apply pyRound1_mono
        apply max_le
        · norm_num
        · exact min_le_left _ _
    _ = 999/10 := pyRound1_999_div_10

theorem score_article_nonneg (km : String → String → Bool)
    (title summary : String) (content : Option String) :
    0 ≤ (score_article km title summary content).threat_hunting_score := by
  rw [score_article_score_eq]
  split_ifs
  · exact le_refl (0:ℚ)
  · exact hunt_score_from_counts_nonneg _ _ _ _ _

theorem score_article_le (km : String → String → Bool)
    (title summary : String) (content : Option String) :
    (score_article km title summary content).threat_hunting_score ≤ 999/10 := by
  rw [score_article_score_eq]
  split_ifs
  · norm_num
  · exact hunt_score_from_counts_le _ _ _ _ _

/-! ## ContentClassifier fallback tier
(`src/cti_scraper/services/ml_classifier.py`, `_fallback_classify`) -/

/-- Result of a classification (`ClassificationResult` dataclass).  The
two-key probability dictionary is modelled by its two entries; the
wall-clock `inference_time_ms` field is omitted (real time). -/
structure ClassificationResult where
  prediction : String
  confidence : ℚ
  prob_huntable : ℚ
  prob_not_huntable : ℚ
  model_version : String
  features_used : List String
deriving DecidableEq

/-- Embedding of `ContentClassifier._fallback_classify`: delegates to
`HuntScorer.score_article(title, "", text)` and maps the score against
`hunt_score_threshold` (constructor default 50.0). -/
def fallback_classify (keyword_matches : String → String → Bool)
    (hunt_score_threshold : ℚ) (title text : String) : ClassificationResult :=
  let score_result := score_article keyword_matches title "" (some text)
  let hunt_score := score_result.threat_hunting_score
  if hunt_score_threshold ≤ hunt_score then
    let confidence := min (19/20) (1/2 + (hunt_score - hunt_score_threshold) / 100)
    { prediction := "huntable"
      confidence := confidence
      prob_huntable := confidence
      prob_not_huntable := 1 - confidence
      model_version := "hunt_scorer_fallback"
      features_used := score_result.perfect_keyword_matches.take 10 }
  else
    let confidence := min (19/20) (1/2 + (hunt_score_threshold - hunt_score) / 100)
    { prediction := "not_huntable"
      confidence := confidence
      prob_huntable := 1 - confidence
      prob_not_huntable := confidence
      model_version := "hunt_scorer_fallback"
      features_used := score_result.perfect_keyword_matches.take 10 }

/-- C4: in the rule-based fallback tier, the prediction is `huntable`
exactly when the hunt score reaches the configured threshold (default 50)
and `not_huntable` otherwise; the confidence always lies in the closed
interval `[0.5, 0.95]`; and the two class probabilities sum to `1`.
Holds for every matching oracle, threshold, title and text. -/
theorem fallback_classify_spec (keyword_matches : String → String → Bool)
    (hunt_score_threshold : ℚ) (title text : String) :
    (fallback_classify keyword_matches hunt_score_threshold title text).prediction =
      (if hunt_score_threshold ≤
          (score_article keyword_matches title "" (some text)).threat_hunting_score
        then "huntable" else "not_huntable")
    ∧ 1/2 ≤ (fallback_classify keyword_matches hunt_score_threshold title text).confidence
    ∧ (fallback_classify keyword_matches hunt_score_threshold title text).confidence ≤ 19/20
    ∧ (fallback_classify keyword_matches hunt_score_threshold title text).prob_huntable +
        (fallback_classify keyword_matches hunt_score_threshold title text).prob_not_huntable = 1 := by
  simp only [fallback_classify]
  split_ifs with h
  · refine ⟨rfl, ?_, ?_, ?_⟩
    · apply le_min
      · norm_num
      · have hd : (0:ℚ) ≤
            ((score_article keyword_matches title "" (some text)).threat_hunting_score -
              hunt_score_threshold) / 100 := by
          apply div_nonneg _ (by norm_num)
          linarith
        linarith
    · exact min_le_left _ _
    · ring
  · push_neg at h
    refine ⟨rfl, ?_, ?_, ?_⟩
    · apply le_min
      · norm_num
      · have hd : (0:ℚ) ≤
            (hunt_score_threshold -
              (score_article keyword_matches title "" (some text)).threat_hunting_score) / 100 := by
          apply div_nonneg _ (by norm_num)
          linarith
        linarith
    · exact min_le_left _ _
    · ring

/-- C10: when both the summary and the (optional) content argument are
empty or absent, `score_article` returns score `0.0` and five empty match
lists, whatever the title and the matching oracle (the early return on
`not content and not summary`). -/
theorem score_article_empty_inputs (keyword_matches : String → String → Bool)
    (title summary : String) (content : Option String)
    (hs : summary = "") (hc : content.getD "" = "") :
    score_article keyword_matches title summary content =
      ⟨0, [], [], [], [], []⟩ := by
  unfold score_article
  rw [if_pos ⟨hc, hs⟩]

theorem score_article_empty_inputs_witness :
    ("" : String) = "" ∧ (Option.getD (α := String) none "") = "" ∧
      score_article (fun _ _ => true) "Threat report title" "" none =
        ⟨0, [], [], [], [], []⟩ :=
  ⟨rfl, rfl,
    score_article_empty_inputs (fun _ _ => true) "Threat report title" "" none rfl rfl⟩

/-- Matching oracle for the C1 counterexample, recording the decisions of
the real `re`-based `HuntScorer._keyword_matches` on the fixed searched
text `"t msiexec.exe "` (the `full_text` built from title `"t"`, summary
`"msiexec.exe"` and no content).  Hand-tracing `_build_keyword_pattern`
over that text: the perfect-discriminator entry `msiexec.exe` (present at
TWO indices of `perfect_discriminators`, source lines 17 and 25) matches
via `\bmsiexec\.exe\b`; the good-discriminator entry `.exe` ALSO matches,
because its base name is empty and short, so its pattern is
`\b(\.exe\b|(?![a-zA-Z0-9]))`, whose zero-width second alternative
accepts at the word boundary after the `t`; every other entry of the five
tables (including every cmd-obfuscation regex entry, matched by
`re.search` directly) fails on this text. -/
def msiexec_text_matcher : String → String → Bool :=
  fun keyword _ => keyword == "msiexec.exe" || keyword == ".exe"

/-- C1 (counterexample): the claim's per-category formula with `n` = the
number of DISTINCT matched keywords, and with the returned score equal to
the un-rounded clamped sum, does not hold.  On title `"t"`, summary
`"msiexec.exe"`, the matched entries are `msiexec.exe` twice (the perfect
table duplicates it) and `.exe` once, so the code returns
`round(75 * (1 - 0.5^2) + 5 * (1 - 0.5^1), 1) = 58.8`, whereas the
claim's distinct-keyword formula gives `75 * (1 - 0.5^1) +
5 * (1 - 0.5^1) = 40.0`. -/
theorem score_article_distinct_count_counterexample :
    (score_article msiexec_text_matcher "t" "msiexec.exe").threat_hunting_score = 294/5 ∧
    score_article_spec_distinct msiexec_text_matcher "t" "msiexec.exe" = 40 ∧
    (score_article msiexec_text_matcher "t" "msiexec.exe").threat_hunting_score ≠
      score_article_spec_distinct msiexec_text_matcher "t" "msiexec.exe" := by
  have hp : match_count msiexec_text_matcher perfect_discriminators
      (hunt_full_text "t" "msiexec.exe" none) = 2 := by decide
  have hg : match_count msiexec_text_matcher good_discriminators
      (hunt_full_text "t" "msiexec.exe" none) = 1 := by decide
  have hl : match_count msiexec_text_matcher lolbas_executables
      (hunt_full_text "t" "msiexec.exe" none) = 0 := by decide
  have hi : match_count msiexec_text_matcher intelligence_indicators
      (hunt_full_text "t" "msiexec.exe" none) = 0 := by decide
  have hn : match_count msiexec_text_matcher negative_indicators
      (hunt_full_text "t" "msiexec.exe" none) = 0 := by decide
  have hdp : dedup_match_count msiexec_text_matcher perfect_discriminators
      (hunt_full_text "t" "msiexec.exe" none) = 1 := by decide
  have hdg : dedup_match_count msiexec_text_matcher good_discriminators
      (hunt_full_text "t" "msiexec.exe" none) = 1 := by decide
  have hdl : dedup_match_count msiexec_text_matcher lolbas_executables
      (hunt_full_text "t" "msiexec.exe" none) = 0 := by decide
  have hdi : dedup_match_count msiexec_text_matcher intelligence_indicators
      (hunt_full_text "t" "msiexec.exe" none) = 0 := by decide
  have hdn : dedup_match_count msiexec_text_matcher negative_indicators
      (hunt_full_text "t" "msiexec.exe" none) = 0 := by decide
  have hscore : (score_article msiexec_text_matcher "t" "msiexec.exe").threat_hunting_score
      = 294/5 := by
    rw [score_article_score_eq, if_neg (by decide), hp, hg, hl, hi, hn]
    have h1 : max (0:ℚ) (min (999/10) (geometric_score 2 75 + geometric_score 1 5 +
        geometric_score 0 10 + geometric_score 0 10 - geometric_score 0 10)) = 235/4 := by
      norm_num [geometric_score]
    have hfl : ⌊(1175/2 : ℚ)⌋ = 587 := by
      rw [Int.floor_eq_iff]
      norm_num
    have h2 : roundHalfEven (1175/2) = 588 := by
      unfold roundHalfEven
      rw [Int.fract, hfl]
      norm_num
      decide
    unfold hunt_score_from_counts
    rw [h1]
    unfold pyRound1
    norm_num [h2]
  have hspec : score_article_spec_distinct msiexec_text_matcher "t" "msiexec.exe" = 40 := by
    unfold score_article_spec_distinct
    rw [if_neg (by decide)]
    simp only [hdp, hdg, hdl, hdi, hdn]
    norm_num [geometric_score]
  refine ⟨hscore, hspec, ?_⟩
  rw [hscore, hspec]
  norm_num

/-- C1 (amended): the score returned by `score_article` equals
`round_1(clamp(sum, 0, 99.9))` where each category contributes
`category_max * (1 - 0.5^n)` with `n` the number of MATCHED TABLE ENTRIES
of that category (maxima 75 / 5 / 10 / 10 and negative 10 subtracted;
duplicated table entries each count); the returned score always lies in
`[0, 99.9]`, hence is strictly below 100; and it is monotonically
non-decreasing in the perfect-category match count with the other four
counts held fixed. -/
theorem score_article_formula_bounds_mono (keyword_matches : String → String → Bool)
    (title summary : String) (content : Option String) :
    ((score_article keyword_matches title summary content).threat_hunting_score =
      if content.getD "" = "" ∧ summary = "" then 0
      else
        hunt_score_from_counts
          (match_count keyword_matches perfect_discriminators (hunt_full_text title summary content))
          (match_count keyword_matches good_discriminators (hunt_full_text title summary content))
          (match_count keyword_matches lolbas_executables (hunt_full_text title summary content))
          (match_count keyword_matches intelligence_indicators (hunt_full_text title summary content))
          (match_count keyword_matches negative_indicators (hunt_full_text title summary content)))
    ∧ 0 ≤ (score_article keyword_matches title summary content).threat_hunting_score
    ∧ (score_article keyword_matches title summary content).threat_hunting_score < 100
    ∧ ∀ p p' g l i n : ℕ, p ≤ p' →
        hunt_score_from_counts p g l i n ≤ hunt_score_from_counts p' g l i n := by
  refine ⟨score_article_score_eq _ _ _ _, score_article_nonneg _ _ _ _, ?_,
    fun p p' g l i n h => hunt_score_from_counts_mono g l i n h⟩
  have := score_article_le keyword_matches title summary content
  linarith

theorem score_article_formula_bounds_mono_witness :
    0 ≤ (score_article msiexec_text_matcher "t" "msiexec.exe" none).threat_hunting_score
    ∧ (score_article msiexec_text_matcher "t" "msiexec.exe" none).threat_hunting_score < 100
    ∧ (1:ℕ) ≤ 3
    ∧ hunt_score_from_counts 1 2 0 0 0 ≤ hunt_score_from_counts 3 2 0 0 0 :=
  ⟨(score_article_formula_bounds_mono msiexec_text_matcher "t" "msiexec.exe" none).2.1,
    (score_article_formula_bounds_mono msiexec_text_matcher "t" "msiexec.exe" none).2.2.1,
    by decide,
    (score_article_formula_bounds_mono msiexec_text_matcher "t" "msiexec.exe"
      none).2.2.2 1 3 2 0 0 0 (by decide)⟩

/-! ## Content fingerprinting
(`RSSParserService._generate_content_hash` in
`src/cti_scraper/services/rss_parser.py`; `WebScraperService` has a
byte-identical copy).  SHA-256 itself is implemented below over `ℕ`
(word arithmetic modulo `2^32`), following FIPS 180-4. -/

theorem char_toNat_ofNat_valid {n : ℕ} (h : n < 55296) : (Char.ofNat n).toNat = n := by
  rw [Char.ofNat, dif_pos (Or.inl (by omega))]
  rfl

theorem pyLowerChar_pyUpperChar (c : Char) :
    pyLowerChar (pyUpperChar c) = pyLowerChar c := by
  unfold pyUpperChar pyLowerChar
  by_cases h : 97 ≤ c.toNat ∧ c.toNat ≤ 122
  · rw [if_pos h]
    have hval : (Char.ofNat (c.toNat - 32)).toNat = c.toNat - 32 :=
      char_toNat_ofNat_valid (by omega)
    rw [if_pos (by omega), if_neg (by omega), hval]
    have : c.toNat - 32 + 32 = c.toNat := by omega
    rw [this, Char.ofNat_toNat]
  · rw [if_neg h]

theorem pyLower_pyUpper (s : String) : pyLower (pyUpper s) = pyLower s := by
  unfold pyLower pyUpper
  simp [List.map_map]
  congr 1
  exact List.map_congr_left (fun c _ => pyLowerChar_pyUpperChar c)

/-- UTF-8 encoding of a single scalar value, as a list of byte values. -/
def utf8Encode (c : Char) : List ℕ :=
  let n := c.toNat
  if n < 128 then [n]
  else if n < 2048 then [192 + n / 64, 128 + n % 64]
  else if n < 65536 then [224 + n / 4096, 128 + (n / 64) % 64, 128 + n % 64]
  else [240 + n / 262144, 128 + (n / 4096) % 64, 128 + (n / 64) % 64, 128 + n % 64]

/-- UTF-8 byte sequence of a string (Python `str.encode("utf-8")`). -/
def utf8Bytes (s : String) : List ℕ :=
  s.data.foldr (fun c acc => utf8Encode c ++ acc) []

/-- Arithmetic on 32-bit words represented as `ℕ` modulo `2^32`.  Bitwise
operations are implemented by structural recursion over 32 binary digits
so that the kernel can evaluate them. -/
def add32 (a b : ℕ) : ℕ := (a + b) % 4294967296

def bitOp32 (f : ℕ → ℕ → ℕ) : ℕ → ℕ → ℕ → ℕ
  | 0, _, _ => 0
  | fuel + 1, a, b => f (a % 2) (b % 2) + 2 * bitOp32 f fuel (a / 2) (b / 2)

/-- Bitwise exclusive or on 32-bit words. -/
def xor32 (a b : ℕ) : ℕ := bitOp32 (fun x y => (x + y) % 2) 32 a b

/-- Bitwise and on 32-bit words. -/
def and32 (a b : ℕ) : ℕ := bitOp32 (fun x y => x * y) 32 a b

/-- Right rotation of a 32-bit word (bitwise `(x >>> n) | (x <<< (32-n))`,
written arithmetically since the two parts occupy disjoint bits). -/
def rotr32 (n x : ℕ) : ℕ := x / 2 ^ n + x % 2 ^ n * 2 ^ (32 - n)

/-- Logical right shift of a 32-bit word. -/
def shr32 (n x : ℕ) : ℕ := x / 2 ^ n

/-- SHA-256 round constants (FIPS 180-4, section 4.2.2). -/
def sha256_k : List ℕ := [
  1116352408, 1899447441, 3049323471, 3921009573, 961987163, 1508970993, 2453635748, 2870763221,
  3624381080, 310598401, 607225278, 1426881987, 1925078388, 2162078206, 2614888103, 3248222580,
  3835390401, 4022224774, 264347078, 604807628, 770255983, 1249150122, 1555081692, 1996064986,
  2554220882, 2821834349, 2952996808, 3210313671, 3336571891, 3584528711, 113926993, 338241895,
  666307205, 773529912, 1294757372, 1396182291, 1695183700, 1986661051, 2177026350, 2456956037,
  2730485921, 2820302411, 3259730800, 3345764771, 3516065817, 3600352804, 4094571909, 275423344,
  430227734, 506948616, 659060556, 883997877, 958139571, 1322822218, 1537002063, 1747873779,
  1955562222, 2024104815, 2227730452, 2361852424, 2428436474, 2756734187, 3204031479, 3329325298
]

/-- The eight-word SHA-256 state. -/
structure Sha256Digest where
  w0 : ℕ
  w1 : ℕ
  w2 : ℕ
  w3 : ℕ
  w4 : ℕ
  w5 : ℕ
  w6 : ℕ
  w7 : ℕ
deriving DecidableEq

/-- SHA-256 initial hash value (FIPS 180-4, section 5.3.3). -/
def sha256_h0 : Sha256Digest :=
  ⟨1779033703, 3144134277, 1013904242, 2773480762,
    1359893119, 2600822924, 528734635, 1541459225⟩

/-- Message padding: append `0x80`, zero bytes to reach 56 mod 64, and the
bit length as an 8-byte big-endian integer. -/
def sha256_pad (msg : List ℕ) : List ℕ :=
  let len := msg.length
  let z := (119 - len % 64) % 64
  let bitLen := 8 * len
  msg ++ [128] ++ List.replicate z 0 ++
    [bitLen / 2 ^ 56 % 256, bitLen / 2 ^ 48 % 256, bitLen / 2 ^ 40 % 256,
      bitLen / 2 ^ 32 % 256, bitLen / 2 ^ 24 % 256, bitLen / 2 ^ 16 % 256,
      bitLen / 2 ^ 8 % 256, bitLen % 256]

/-- Split a byte list into 64-byte blocks (structural recursion on a fuel
counter so the kernel can evaluate it; the fuel bounds the block count). -/
def sha256_blocks_aux : ℕ → List ℕ → List (List ℕ)
  | 0, _ => []
  | fuel + 1, l => if l = [] then [] else l.take 64 :: sha256_blocks_aux fuel (l.drop 64)

def sha256_blocks (l : List ℕ) : List (List ℕ) := sha256_blocks_aux (l.length + 1) l

/-- Interpret a 64-byte block as 16 big-endian 32-bit words. -/
def sha256_block_words (block : List ℕ) : List ℕ :=
  (List.range 16).map (fun i =>
    (block.getD (4 * i) 0) * 16777216 + (block.getD (4 * i + 1) 0) * 65536 +
      (block.getD (4 * i + 2) 0) * 256 + block.getD (4 * i + 3) 0)

/-- Message-schedule extension of the 16 block words to 64 words
(FIPS 180-4, section 6.2.2 step 1). -/
def sha256_schedule (w16 : List ℕ) : List ℕ :=
  (List.range 48).foldl (fun ws _ =>
    let m := ws.length
    let w15 := ws.getD (m - 15) 0
    let w2 := ws.getD (m - 2) 0
    let s0 := xor32 (xor32 (rotr32 7 w15) (rotr32 18 w15)) (shr32 3 w15)
    let s1 := xor32 (xor32 (rotr32 17 w2) (rotr32 19 w2)) (shr32 10 w2)
    ws ++ [(ws.getD (m - 16) 0 + s0 + ws.getD (m - 7) 0 + s1) % 4294967296]) w16

/-- One SHA-256 compression step for round constant `k` and schedule word `w`. -/
def sha256_round (k w : ℕ)
    (st : ℕ × ℕ × ℕ × ℕ × ℕ × ℕ × ℕ × ℕ) : ℕ × ℕ × ℕ × ℕ × ℕ × ℕ × ℕ × ℕ :=
  let (a, b, c, d, e, f, g, hh) := st
  let s1 := xor32 (xor32 (rotr32 6 e) (rotr32 11 e)) (rotr32 25 e)
  let ch := xor32 (and32 e f) (and32 (4294967295 - e) g)
  let temp1 := (hh + s1 + ch + k + w) % 4294967296
  let s0 := xor32 (xor32 (rotr32 2 a) (rotr32 13 a)) (rotr32 22 a)
  let maj := xor32 (xor32 (and32 a b) (and32 a c)) (and32 b c)
  let temp2 := (s0 + maj) % 4294967296
  (add32 temp1 temp2, a, b, c, (add32 d temp1), e, f, g)

/-- Compress one 64-byte block into the running digest
(FIPS 180-4, section 6.2.2). -/
def sha256_compress (st : Sha256Digest) (block : List ℕ) : Sha256Digest :=
  let ws := sha256_schedule (sha256_block_words block)
  let (a, b, c, d, e, f, g, hh) :=
    (sha256_k.zip ws).foldl (fun acc kw => sha256_round kw.1 kw.2 acc)
      (st.w0, st.w1, st.w2, st.w3, st.w4, st.w5, st.w6, st.w7)
  ⟨add32 st.w0 a, add32 st.w1 b, add32 st.w2 c, add32 st.w3 d,
    add32 st.w4 e, add32 st.w5 f, add32 st.w6 g, add32 st.w7 hh⟩

/-- SHA-256 digest of a byte sequence. -/
def sha256_digest (msg : List ℕ) : Sha256Digest :=
  (sha256_blocks (sha256_pad msg)).foldl sha256_compress sha256_h0

/-- Lower-case hexadecimal digit. -/
def hexDigit (n : ℕ) : Char :=
  if n < 10 then Char.ofNat (48 + n) else Char.ofNat (87 + n)

/-- Eight hex characters of one 32-bit word, most significant nibble first. -/
def hexWord32 (w : ℕ) : List Char :=
  [hexDigit (w / 2 ^ 28 % 16), hexDigit (w / 2 ^ 24 % 16),
    hexDigit (w / 2 ^ 20 % 16), hexDigit (w / 2 ^ 16 % 16),
    hexDigit (w / 2 ^ 12 % 16), hexDigit (w / 2 ^ 8 % 16),
    hexDigit (w / 2 ^ 4 % 16), hexDigit (w % 16)]

/-- Python `hashlib.sha256(bytes).hexdigest()`. -/
def sha256_hexdigest (msg : List ℕ) : String :=
  let d := sha256_digest msg
  String.mk (hexWord32 d.w0 ++ hexWord32 d.w1 ++ hexWord32 d.w2 ++ hexWord32 d.w3 ++
    hexWord32 d.w4 ++ hexWord32 d.w5 ++ hexWord32 d.w6 ++ hexWord32 d.w7)

/-- Python `s[:500]` (slice of the first 500 code points). -/
def pySlice500 (s : String) : String := String.mk (s.data.take 500)

/-- Embedding of `RSSParserService._generate_content_hash` (and the
identical `WebScraperService._generate_content_hash`): SHA-256 hex digest
of the normalized title, URL and 500-character content prefix joined by
`|`. -/
def generate_content_hash (title url content : String) : String :=
  let title_norm := pyStrip (pyLower title)
  let url_norm := pyStrip (pyLower url)
  let content_norm := if content = "" then "" else pyStrip (pyLower (pySlice500 content))
  let combined := title_norm ++ "|" ++ url_norm ++ "|" ++ content_norm
  sha256_hexdigest (utf8Bytes combined)

set_option maxRecDepth 100000 in
/-- Sanity check of the SHA-256 implementation against the FIPS 180-4 test
vector `SHA-256("abc")`. -/
theorem sha256_abc_test_vector :
    sha256_hexdigest (utf8Bytes "abc") =
      "ba7816bf8f01cfea414140de5dae2223b00361a396177a9cb410ff61f20015ad" := by decide

theorem sha256_hexdigest_length (msg : List ℕ) : (sha256_hexdigest msg).length = 64 := by
  simp [sha256_hexdigest, String.length, hexWord32]

theorem pySlice500_of_le {s : String} (h : s.length ≤ 500) : pySlice500 s = s := by
  unfold pySlice500
  rw [List.take_of_length_le h]

/-- C6: the content fingerprint is deterministic (a pure function of its
three string arguments, by construction) and case-insensitive in the title:
for any content of at most 500 characters, `fingerprint(T, U, C)` equals
`fingerprint(T.upper(), U, C)`, and the result is the 64-character
lower-case hex SHA-256 digest of the lower-cased, whitespace-trimmed title,
URL and (entire, since it is at most 500 characters) content joined by
`|`. -/
theorem generate_content_hash_spec (title url content : String)
    (h : content.length ≤ 500) :
    generate_content_hash title url content =
      generate_content_hash (pyUpper title) url content
    ∧ (generate_content_hash title url content).length = 64
    ∧ generate_content_hash title url content =
        sha256_hexdigest (utf8Bytes
          (pyStrip (pyLower title) ++ "|" ++ pyStrip (pyLower url) ++ "|" ++
            pyStrip (pyLower content))) := by
  refine ⟨?_, ?_, ?_⟩
  · unfold generate_content_hash
    rw [pyLower_pyUpper]
  · unfold generate_content_hash
    exact sha256_hexdigest_length _
  · unfold generate_content_hash
    by_cases hc : content = ""
    · subst hc
      rfl
    · rw [if_neg hc, pySlice500_of_le h]

theorem generate_content_hash_spec_witness :
    ("TTPs observed in the wild" : String).length ≤ 500 ∧
      generate_content_hash "Emotet Returns" "https://blog.example.com/emotet"
          "TTPs observed in the wild" =
        generate_content_hash (pyUpper "Emotet Returns") "https://blog.example.com/emotet"
          "TTPs observed in the wild" ∧
      (generate_content_hash "Emotet Returns" "https://blog.example.com/emotet"
          "TTPs observed in the wild").length = 64 :=
  ⟨by decide,
    (generate_content_hash_spec "Emotet Returns" "https://blog.example.com/emotet"
      "TTPs observed in the wild" (by decide)).1,
    (generate_content_hash_spec "Emotet Returns" "https://blog.example.com/emotet"
      "TTPs observed in the wild" (by decide)).2.1⟩

/-! ## Scraper orchestrator
(`src/cti_scraper/services/scraper_orchestrator.py`)

The database session is modelled as an explicit record of three tables
(sources, articles, source checks); `commit` is implicit in the state
threading.  `datetime.utcnow()` is modelled by one `now : ℤ` parameter per
poll step; the network fetch (`rss_parser.parse_feed_async` /
`web_scraper.scrape_page`, both of which catch their own exceptions and
return a success flag) is modelled by a `FetchResult` value; the keyword
matcher of the embedded `score_article` is threaded through as `km`.
Source configuration comes from `cti_scraper.config.sources` (config
loading is external per the spec) and is modelled as an explicit
`List SourceConfig` argument.  Wall-clock response times are omitted. -/

/-- One entry of the static source configuration
(`{identifier, name, url, rss_url?, check_frequency, active}`). -/
structure SourceConfig where
  identifier : String
  name : String
  url : String
  rss_url : Option String
  check_frequency : ℤ
  active : Bool
deriving DecidableEq

/-- A row of the `sources` table (`db.models.Source`). -/
structure SourceRec where
  id : ℕ
  identifier : String
  name : String
  url : String
  rss_url : Option String
  check_frequency : ℤ
  active : Bool
  last_check : Option ℤ
  last_success : Option ℤ
  consecutive_failures : ℕ
  total_articles : ℕ
deriving DecidableEq

/-- A candidate article dict as produced by the RSS parser / web scraper. -/
structure ArticleData where
  url : String
  title : String
  summary : String
  content : String
  published_date : Option ℤ
  authors : List String
  content_hash : String
  source_feed_url : Option String
  source_url : Option String
deriving DecidableEq

/-- A row of the `articles` table (`db.models.Article`); the
`article_metadata` JSON bag is flattened into named fields. -/
structure ArticleRec where
  source_id : ℕ
  canonical_url : String
  title : String
  summary : String
  content : String
  published_at : Option ℤ
  authors : List String
  content_hash : String
  word_count : ℕ
  source_feed_url : Option String
  source_url : Option String
  hunt_score : ℚ
  perfect_keywords : List String
  good_keywords : List String
  lolbas_keywords : List String
  intelligence_keywords : List String
  processing_status : String
deriving DecidableEq

/-- A row of the `source_checks` table (`db.models.SourceCheck`); the
wall-clock `check_time` / `response_time` fields are omitted. -/
structure SourceCheckRec where
  source_id : ℕ
  success : Bool
  method : String
  articles_found : ℕ
  error_message : Option String
deriving DecidableEq

/-- The persistent store visible to the orchestrator. -/
structure ScraperDB where
  sources : List SourceRec
  articles : List ArticleRec
  source_checks : List SourceCheckRec
deriving DecidableEq

/-- Outcome of one network fetch (`parse_feed_async` / `scrape_page`
result dict: a success flag with either articles or an error message). -/
inductive FetchResult where
  | success (articles : List ArticleData)
  | failure (error : String)
deriving DecidableEq

/-- The mutable `results` summary dict threaded through the scrape loop. -/
structure ScrapeResults where
  total_articles_found : ℕ
  new_articles_saved : ℕ
  duplicate_articles_skipped : ℕ
  errors : List (String × String)
deriving DecidableEq

/-- SQLAlchemy `Result.scalar_one_or_none()`: none for no rows, the row if
unique, an error (`MultipleResultsFound`) otherwise. -/
def scalar_one_or_none {α : Type} (l : List α) : Except String (Option α) :=
  match l with
  | [] => .ok none
  | [a] => .ok (some a)
  | _ => .error "MultipleResultsFound"

/-- Embedding of `ScraperOrchestrator._should_scrape`: a source is due when
it has never been checked or the elapsed seconds since `last_check` reach
`check_frequency`. -/
def should_scrape (now : ℤ) (source : SourceRec) (check_frequency : ℤ) : Bool :=
  match source.last_check with
  | none => true
  | some last => decide (check_frequency ≤ now - last)

/-- The configuration-field refresh applied by `_get_or_create_source` to
an existing source row (`source.name = ...` through `source.active = ...`);
identifier and health counters are untouched. -/
def refresh_source (cfg : SourceConfig) (s : SourceRec) : SourceRec :=
  { s with
    name := cfg.name
    url := cfg.url
    rss_url := cfg.rss_url
    check_frequency := cfg.check_frequency
    active := cfg.active }

/-- Embedding of `ScraperOrchestrator._get_or_create_source`: look up the
source row by identifier, refreshing its configuration fields if present,
creating it with zeroed health counters otherwise. -/
def get_or_create_source (cfg : SourceConfig) (db : ScraperDB) :
    SourceRec × ScraperDB :=
  match db.sources.find? (fun s => s.identifier == cfg.identifier) with
  | some s =>
    let s' := refresh_source cfg s
    (s', { db with sources :=
      db.sources.map (fun t => if t.identifier == cfg.identifier then s' else t) })
  | none =>
    let s' : SourceRec :=
      { id := db.sources.length + 1
        identifier := cfg.identifier
        name := cfg.name
        url := cfg.url
        rss_url := cfg.rss_url
        check_frequency := cfg.check_frequency
        active := cfg.active
        last_check := none
        last_success := none
        consecutive_failures := 0
        total_articles := 0 }
    (s', { db with sources := db.sources ++ [s'] })

/-- Embedding of `ScraperOrchestrator._record_source_check`: append one
check row. -/
def record_source_check (source_id : ℕ) (success : Bool) (method : String)
    (articles_found : ℕ) (error_message : Option String) (db : ScraperDB) : ScraperDB :=
  { db with source_checks := db.source_checks ++
      [⟨source_id, success, method, articles_found, error_message⟩] }

/-- In-place mutation of one source row (keyed by `source.id`, as the ORM
object identity is). -/
def update_source (db : ScraperDB) (sid : ℕ) (f : SourceRec → SourceRec) : ScraperDB :=
  { db with sources := db.sources.map (fun s => if s.id == sid then f s else s) }

/-- The `Article(...)` row constructed by `_save_article` for a
non-duplicate candidate: hunt-scored, word-counted, with the top-10
matched keywords recorded in the metadata and status `scraped`. -/
def new_article (km : String → String → Bool) (article_data : ArticleData)
    (source_id : ℕ) : ArticleRec :=
  let hunt_result := score_article km article_data.title article_data.summary
    (some article_data.content)
  let word_count := if article_data.content = "" then 0
    else (pyWords article_data.content).length
  { source_id := source_id
    canonical_url := article_data.url
    title := article_data.title
    summary := article_data.summary
    content := article_data.content
    published_at := article_data.published_date
    authors := article_data.authors
    content_hash := article_data.content_hash
    word_count := word_count
    source_feed_url := article_data.source_feed_url
    source_url := article_data.source_url
    hunt_score := hunt_result.threat_hunting_score
    perfect_keywords := hunt_result.perfect_keyword_matches.take 10
    good_keywords := hunt_result.good_keyword_matches.take 10
    lolbas_keywords := hunt_result.lolbas_matches.take 10
    intelligence_keywords := hunt_result.intelligence_matches.take 10
    processing_status := "scraped" }

/-- Embedding of `ScraperOrchestrator._save_article`: look up the content
hash; a hit is a duplicate (returns `false`, store unchanged), otherwise
the candidate is hunt-scored and persisted (returns `true`). -/
def save_article (km : String → String → Bool) (article_data : ArticleData)
    (source_id : ℕ) (db : ScraperDB) : Except String (Bool × ScraperDB) :=
  match scalar_one_or_none
      (db.articles.filter (fun a => a.content_hash == article_data.content_hash)) with
  | .error e => .error e
  | .ok (some _) => .ok (false, db)
  | .ok none =>
    .ok (true, { db with articles := db.articles ++ [new_article km article_data source_id] })

/-- The per-article save loop of `_scrape_rss_source` / `_scrape_web_source`
(`for article_data in articles: try: ... except: log`): accumulates the new
count and the result counters; a raised save error is swallowed. -/
def save_articles_loop (km : String → String → Bool) (arts : List ArticleData)
    (source_id : ℕ) (db : ScraperDB) (new_count : ℕ) (results : ScrapeResults) :
    ScraperDB × ℕ × ScrapeResults :=
  match arts with
  | [] => (db, new_count, results)
  | ad :: rest =>
    match save_article km ad source_id db with
    | .error _ => save_articles_loop km rest source_id db new_count results
    | .ok (true, db') =>
      save_articles_loop km rest source_id db' (new_count + 1)
        { results with new_articles_saved := results.new_articles_saved + 1 }
    | .ok (false, db') =>
      save_articles_loop km rest source_id db' new_count
        { results with duplicate_articles_skipped := results.duplicate_articles_skipped + 1 }

/-- Common body of `_scrape_rss_source` and `_scrape_web_source` (the two
functions are line-for-line identical apart from the fetch service and the
check `method` string). -/
def scrape_source_core (method : String) (km : String → String → Bool) (now : ℤ)
    (fetch : FetchResult) (cfg : SourceConfig) (db : ScraperDB)
    (results : ScrapeResults) : ScraperDB × ScrapeResults :=
  let sdb := get_or_create_source cfg db
  let source := sdb.1
  let db := sdb.2
  if ¬ should_scrape now source cfg.check_frequency then (db, results)
  else
    match fetch with
    | .failure err =>
      let results := { results with errors := results.errors ++ [(cfg.identifier, err)] }
      let db := record_source_check source.id false method 0 (some err) db
      let db := update_source db source.id (fun s =>
        { s with
          last_check := some now
          consecutive_failures := s.consecutive_failures + 1 })
      (db, results)
    | .success articles =>
      let results := { results with total_articles_found :=
        results.total_articles_found + articles.length }
      let loop_out := save_articles_loop km articles source.id db 0 results
      let db := loop_out.1
      let new_count := loop_out.2.1
      let results := loop_out.2.2
      let db := update_source db source.id (fun s =>
        { s with
          last_check := some now
          last_success := some now
          consecutive_failures := 0
          total_articles := s.total_articles + new_count })
      let db := record_source_check source.id true method articles.length none db
      (db, results)

/-- Embedding of `ScraperOrchestrator._scrape_rss_source`. -/
def scrape_rss_source (km : String → String → Bool) (now : ℤ) (fetch : FetchResult)
    (cfg : SourceConfig) (db : ScraperDB) (results : ScrapeResults) :
    ScraperDB × ScrapeResults :=
  scrape_source_core "rss" km now fetch cfg db results

/-- Embedding of `ScraperOrchestrator._scrape_web_source`. -/
def scrape_web_source (km : String → String → Bool) (now : ℤ) (fetch : FetchResult)
    (cfg : SourceConfig) (db : ScraperDB) (results : ScrapeResults) :
    ScraperDB × ScrapeResults :=
  scrape_source_core "scrape" km now fetch cfg db results

/-- Return dict of `scrape_source_by_identifier`. -/
structure SingleScrapeResult where
  success : Bool
  error : Option String
  total_articles_found : ℕ
  new_articles_saved : ℕ
  duplicate_articles_skipped : ℕ
deriving DecidableEq

/-- Embedding of `ScraperOrchestrator.scrape_source_by_identifier`:
look up the configuration entry (`get_source_by_identifier` over the
external configuration list), reject missing or inactive sources, then
route to the RSS or web per-source scrape. -/
def scrape_source_by_identifier (km : String → String → Bool) (now : ℤ)
    (fetch : FetchResult) (configs : List SourceConfig) (identifier : String)
    (db : ScraperDB) : ScraperDB × SingleScrapeResult :=
  match configs.find? (fun c => c.identifier == identifier) with
  | none => (db, ⟨false, some ("Source not found: " ++ identifier), 0, 0, 0⟩)
  | some cfg =>
    if ¬ cfg.active then
      (db, ⟨false, some ("Source is not active: " ++ identifier), 0, 0, 0⟩)
    else
      let results0 : ScrapeResults := ⟨0, 0, 0, []⟩
      let out := if cfg.rss_url.isSome then
          scrape_rss_source km now fetch cfg db results0
        else
          scrape_web_source km now fetch cfg db results0
      (out.1, ⟨true, none, out.2.total_articles_found, out.2.new_articles_saved,
        out.2.duplicate_articles_skipped⟩)

/-- The health counters of one source row. -/
def source_health (s : SourceRec) : Option ℤ × Option ℤ × ℕ × ℕ :=
  (s.last_check, s.last_success, s.consecutive_failures, s.total_articles)

theorem should_scrape_refresh (now : ℤ) (cfg : SourceConfig) (s : SourceRec)
    (f : ℤ) : should_scrape now (refresh_source cfg s) f = should_scrape now s f := rfl

theorem refresh_source_id (cfg : SourceConfig) (s : SourceRec) :
    (refresh_source cfg s).id = s.id := rfl

theorem refresh_source_health (cfg : SourceConfig) (s : SourceRec) :
    source_health (refresh_source cfg s) = source_health s := rfl

/-- Auxiliary: mapping a function that sends every predicate-matching
element to the fixed matching value `r` and keeps non-matching elements
non-matching turns `find?` into `some r` whenever a match exists. -/
theorem find?_map_const_on_matches {α : Type} (l : List α) (p : α → Bool)
    (G : α → α) (r : α)
    (h1 : ∀ a, p a = true → G a = r) (h2 : ∀ a, p a = false → p (G a) = false)
    (h3 : p r = true)
    (hex : (l.find? p).isSome = true) :
    (l.map G).find? p = some r := by
  induction l with
  | nil => simp at hex
  | cons a l ih =>
    by_cases hp : p a = true
    · rw [List.map_cons, List.find?_cons_of_pos _ (by rw [h1 a hp]; exact h3), h1 a hp]
    · have hp' : p a = false := by
        revert hp
        cases p a <;> simp
      have hex' : (l.find? p).isSome = true := by
        rwa [List.find?_cons_of_neg _ hp] at hex
      rw [List.map_cons, List.find?_cons_of_neg _ (by simp [h2 a hp'])]
      exact ih hex' 

theorem save_article_frame {km : String → String → Bool} {ad : ArticleData}
    {sid : ℕ} {db : ScraperDB} {b : Bool} {db' : ScraperDB}
    (h : save_article km ad sid db = .ok (b, db')) :
    db'.sources = db.sources ∧ db'.source_checks = db.source_checks := by
  unfold save_article at h
  split at h
  · exact absurd h (by simp)
  · rw [Except.ok.injEq, Prod.mk.injEq] at h
    rw [← h.2]
    exact ⟨rfl, rfl⟩
  · rw [Except.ok.injEq, Prod.mk.injEq] at h
    rw [← h.2]
    exact ⟨rfl, rfl⟩

theorem save_articles_loop_frame (km : String → String → Bool)
    (arts : List ArticleData) (sid : ℕ) (db : ScraperDB) (n : ℕ)
    (results : ScrapeResults) :
    (save_articles_loop km arts sid db n results).1.sources = db.sources ∧
    (save_articles_loop km arts sid db n results).1.source_checks = db.source_checks := by
  induction arts generalizing db n results with
  | nil => exact ⟨rfl, rfl⟩
  | cons ad rest ih =>
    unfold save_articles_loop
    split
    · exact ih db n results
    · next b db' heq =>
      rcases save_article_frame heq with ⟨h1, h2⟩
      rcases ih db' (n + 1) _ with ⟨h3, h4⟩
      exact ⟨h3.trans h1, h4.trans h2⟩
    · next b db' heq =>
      rcases save_article_frame heq with ⟨h1, h2⟩
      rcases ih db' n _ with ⟨h3, h4⟩
      exact ⟨h3.trans h1, h4.trans h2⟩

theorem scrape_source_core_not_due (method : String) (km : String → String → Bool)
    (now : ℤ) (fetch : FetchResult) (cfg : SourceConfig) (db : ScraperDB)
    (results : ScrapeResults) {s0 : SourceRec}
    (hfind : db.sources.find? (fun s => s.identifier == cfg.identifier) = some s0)
    (hgate : should_scrape now s0 cfg.check_frequency = false) :
    scrape_source_core method km now fetch cfg db results =
      ({ db with sources := db.sources.map (fun t =>
          if t.identifier == cfg.identifier then refresh_source cfg s0 else t) },
        results) := by
  unfold scrape_source_core get_or_create_source
  rw [hfind]
  simp [should_scrape_refresh, hgate]

theorem scrape_source_core_due_failure (method : String) (km : String → String → Bool)
    (now : ℤ) (err : String) (cfg : SourceConfig) (db : ScraperDB)
    (results : ScrapeResults) {s0 : SourceRec}
    (hfind : db.sources.find? (fun s => s.identifier == cfg.identifier) = some s0)
    (hgate : should_scrape now s0 cfg.check_frequency = true) :
    scrape_source_core method km now (.failure err) cfg db results =
      (update_source
        (record_source_check s0.id false method 0 (some err)
          { db with sources := db.sources.map (fun t =>
            if t.identifier == cfg.identifier then refresh_source cfg s0 else t) })
        s0.id
        (fun s => { s with last_check := some now, consecutive_failures := s.consecutive_failures + 1 }),
       { results with errors := results.errors ++ [(cfg.identifier, err)] }) := by
  unfold scrape_source_core get_or_create_source
  rw [hfind]
  simp [should_scrape_refresh, hgate]
  rfl

theorem scrape_source_core_due_success (method : String) (km : String → String → Bool)
    (now : ℤ) (arts : List ArticleData) (cfg : SourceConfig) (db : ScraperDB)
    (results : ScrapeResults) {s0 : SourceRec}
    (hfind : db.sources.find? (fun s => s.identifier == cfg.identifier) = some s0)
    (hgate : should_scrape now s0 cfg.check_frequency = true) :
    scrape_source_core method km now (.success arts) cfg db results =
      (let db1 : ScraperDB := { db with sources := db.sources.map (fun t =>
          if t.identifier == cfg.identifier then refresh_source cfg s0 else t) }
       let results1 : ScrapeResults := { results with total_articles_found :=
          results.total_articles_found + arts.length }
       let lo := save_articles_loop km arts s0.id db1 0 results1
       (record_source_check s0.id true method arts.length none
          (update_source lo.1 s0.id
            (fun s => { s with last_check := some now, last_success := some now, consecutive_failures := 0, total_articles := s.total_articles + lo.2.1 })),
        lo.2.2)) := by
  unfold scrape_source_core get_or_create_source
  rw [hfind]
  simp [should_scrape_refresh, hgate]
  constructor <;> rfl

/-- The consecutive-failure counter of the (first) source row with the
given identifier. -/
def failures_of (db : ScraperDB) (identifier : String) : Option ℕ :=
  (db.sources.find? (fun s => s.identifier == identifier)).map
    (fun s => s.consecutive_failures)

theorem find?_after_refresh (db : ScraperDB) (cfg : SourceConfig) {s0 : SourceRec}
    (hfind : db.sources.find? (fun s => s.identifier == cfg.identifier) = some s0) :
    (db.sources.map (fun t =>
      if t.identifier == cfg.identifier then refresh_source cfg s0 else t)).find?
        (fun s => s.identifier == cfg.identifier) = some (refresh_source cfg s0) := by
  apply find?_map_const_on_matches
  · intro a hp
    rw [if_pos hp]
  · intro a hp
    have hrepl : (if a.identifier == cfg.identifier then refresh_source cfg s0 else a) = a :=
      if_neg (by simp [hp])
    rw [hrepl]
    exact hp
  · have hps := List.find?_some hfind
    exact hps
  · rw [hfind]
    rfl

theorem failures_after_update (db : ScraperDB) (cfg : SourceConfig) {s0 : SourceRec}
    (hfind : db.sources.find? (fun s => s.identifier == cfg.identifier) = some s0)
    (f : SourceRec → SourceRec)
    (hf_id : ∀ s, (f s).identifier = s.identifier) :
    ((db.sources.map (fun t =>
        if t.identifier == cfg.identifier then refresh_source cfg s0 else t)).map
      (fun s => if s.id == s0.id then f s else s)).find?
        (fun s => s.identifier == cfg.identifier) =
      some (f (refresh_source cfg s0)) := by
  rw [List.map_map]
  apply find?_map_const_on_matches
  · intro a hp
    simp only [Function.comp]
    rw [if_pos hp,
      if_pos (show ((refresh_source cfg s0).id == s0.id) = true by simp [refresh_source_id])]
  · intro a hp
    simp only [Function.comp]
    have hrepl : (if a.identifier == cfg.identifier then refresh_source cfg s0 else a) = a :=
      if_neg (by simp [hp])
    rw [hrepl]
    by_cases hid : (a.id == s0.id) = true
    · rw [if_pos hid]
      show ((f a).identifier == cfg.identifier) = false
      rw [hf_id]
      exact hp
    · rw [if_neg hid]
      exact hp
  · show ((f (refresh_source cfg s0)).identifier == cfg.identifier) = true
    rw [hf_id]
    have hps := List.find?_some hfind
    exact hps
  · rw [hfind]
    rfl

/-- C7: failure-streak invariant of the per-source poll step.  When the
frequency gate lets the poll execute the fetch, the polled source's
`consecutive_failures` becomes `0` on a successful fetch and its previous
value plus exactly one on a failed fetch, for both the RSS and the web
step; when the gate blocks the poll (the only other poll outcome), the
counter is unchanged whatever the would-be fetch result. -/
theorem consecutive_failures_invariant (km : String → String → Bool) (now : ℤ)
    (err : String) (arts : List ArticleData) (cfg : SourceConfig) (db : ScraperDB)
    (results : ScrapeResults) (s0 : SourceRec)
    (hfind : db.sources.find? (fun s => s.identifier == cfg.identifier) = some s0) :
    (should_scrape now s0 cfg.check_frequency = true →
      failures_of (scrape_rss_source km now (.failure err) cfg db results).1 cfg.identifier =
        some (s0.consecutive_failures + 1) ∧
      failures_of (scrape_web_source km now (.failure err) cfg db results).1 cfg.identifier =
        some (s0.consecutive_failures + 1) ∧
      failures_of (scrape_rss_source km now (.success arts) cfg db results).1 cfg.identifier =
        some 0 ∧
      failures_of (scrape_web_source km now (.success arts) cfg db results).1 cfg.identifier =
        some 0)
    ∧ (should_scrape now s0 cfg.check_frequency = false →
      ∀ fetch : FetchResult,
        failures_of (scrape_rss_source km now fetch cfg db results).1 cfg.identifier =
          some s0.consecutive_failures ∧
        failures_of (scrape_web_source km now fetch cfg db results).1 cfg.identifier =
          some s0.consecutive_failures) := by
  constructor
  · intro hgate
    refine ⟨?_, ?_, ?_, ?_⟩
    · unfold scrape_rss_source
      rw [scrape_source_core_due_failure "rss" km now err cfg db results hfind hgate]
      unfold failures_of update_source record_source_check
      rw [failures_after_update db cfg hfind
        (fun s => { s with last_check := some now, consecutive_failures := s.consecutive_failures + 1 })
        (fun s => rfl)]
      rfl
    · unfold scrape_web_source
      rw [scrape_source_core_due_failure "scrape" km now err cfg db results hfind hgate]
      unfold failures_of update_source record_source_check
      rw [failures_after_update db cfg hfind
        (fun s => { s with last_check := some now, consecutive_failures := s.consecutive_failures + 1 })
        (fun s => rfl)]
      rfl
    · unfold scrape_rss_source
      rw [scrape_source_core_due_success "rss" km now arts cfg db results hfind hgate]
      simp only [failures_of, update_source, record_source_check]
      rw [(save_articles_loop_frame km arts s0.id _ 0 _).1]
      rw [failures_after_update db cfg hfind
        (fun s => { s with last_check := some now, last_success := some now, consecutive_failures := 0, total_articles := s.total_articles + (save_articles_loop km arts s0.id { db with sources := db.sources.map (fun t => if t.identifier == cfg.identifier then refresh_source cfg s0 else t) } 0 { results with total_articles_found := results.total_articles_found + arts.length }).2.1 })
        (fun s => rfl)]
      rfl
    · unfold scrape_web_source
      rw [scrape_source_core_due_success "scrape" km now arts cfg db results hfind hgate]
      simp only [failures_of, update_source, record_source_check]
      rw [(save_articles_loop_frame km arts s0.id _ 0 _).1]
      rw [failures_after_update db cfg hfind
        (fun s => { s with last_check := some now, last_success := some now, consecutive_failures := 0, total_articles := s.total_articles + (save_articles_loop km arts s0.id { db with sources := db.sources.map (fun t => if t.identifier == cfg.identifier then refresh_source cfg s0 else t) } 0 { results with total_articles_found := results.total_articles_found + arts.length }).2.1 })
        (fun s => rfl)]
      rfl
  · intro hgate fetch
    constructor
    · unfold scrape_rss_source
      rw [scrape_source_core_not_due "rss" km now fetch cfg db results hfind hgate]
      unfold failures_of
      rw [find?_after_refresh db cfg hfind]
      rfl
    · unfold scrape_web_source
      rw [scrape_source_core_not_due "scrape" km now fetch cfg db results hfind hgate]
      unfold failures_of
      rw [find?_after_refresh db cfg hfind]
      rfl

theorem consecutive_failures_invariant_witness :
    ([⟨1, "w1", "W One", "https://w.example", some "https://w.example/feed", 1800, true,
        none, none, 2, 5⟩] : List SourceRec).find? (fun s => s.identifier == "w1") =
      some ⟨1, "w1", "W One", "https://w.example", some "https://w.example/feed", 1800, true,
        none, none, 2, 5⟩
    ∧ should_scrape 5000 ⟨1, "w1", "W One", "https://w.example", some "https://w.example/feed",
        1800, true, none, none, 2, 5⟩ 1800 = true
    ∧ failures_of (scrape_rss_source (fun _ _ => false) 5000 (.failure "boom")
        ⟨"w1", "W One", "https://w.example", some "https://w.example/feed", 1800, true⟩
        ⟨[⟨1, "w1", "W One", "https://w.example", some "https://w.example/feed", 1800, true,
          none, none, 2, 5⟩], [], []⟩
        ⟨0, 0, 0, []⟩).1 "w1" = some 3 := by
  refine ⟨by decide, by decide, ?_⟩
  exact ((consecutive_failures_invariant (fun _ _ => false) 5000 "boom" []
    ⟨"w1", "W One", "https://w.example", some "https://w.example/feed", 1800, true⟩
    ⟨[⟨1, "w1", "W One", "https://w.example", some "https://w.example/feed", 1800, true,
      none, none, 2, 5⟩], [], []⟩
    ⟨0, 0, 0, []⟩
    ⟨1, "w1", "W One", "https://w.example", some "https://w.example/feed", 1800, true,
      none, none, 2, 5⟩ (by decide)).1 (by decide)).1

/-- C8: when a source's elapsed time since `last_check` is strictly below
its configured `check_frequency`, the poll step is a no-op apart from the
configuration refresh: no fetch happens (the step's outcome does not
depend on the fetch result at all), no SourceCheck row is appended, the
article store is untouched, the result counters are untouched, and the
source's health counters are unchanged — for both the RSS and the web
step. -/
theorem frequency_gate_no_op (km : String → String → Bool) (now t : ℤ)
    (fetch fetch' : FetchResult) (cfg : SourceConfig) (db : ScraperDB)
    (results : ScrapeResults) (s0 : SourceRec)
    (hfind : db.sources.find? (fun s => s.identifier == cfg.identifier) = some s0)
    (hlast : s0.last_check = some t)
    (hrecent : now - t < cfg.check_frequency) :
    (scrape_rss_source km now fetch cfg db results).1.source_checks = db.source_checks
    ∧ (scrape_rss_source km now fetch cfg db results).1.articles = db.articles
    ∧ ((scrape_rss_source km now fetch cfg db results).1.sources.find?
        (fun s => s.identifier == cfg.identifier)).map source_health =
        some (source_health s0)
    ∧ (scrape_rss_source km now fetch cfg db results).2 = results
    ∧ scrape_rss_source km now fetch cfg db results =
        scrape_rss_source km now fetch' cfg db results
    ∧ (scrape_web_source km now fetch cfg db results).1.source_checks = db.source_checks
    ∧ (scrape_web_source km now fetch cfg db results).1.articles = db.articles
    ∧ ((scrape_web_source km now fetch cfg db results).1.sources.find?
        (fun s => s.identifier == cfg.identifier)).map source_health =
        some (source_health s0)
    ∧ (scrape_web_source km now fetch cfg db results).2 = results
    ∧ scrape_web_source km now fetch cfg db results =
        scrape_web_source km now fetch' cfg db results := by
  have hgate : should_scrape now s0 cfg.check_frequency = false := by
    unfold should_scrape
    rw [hlast]
    simp only [decide_eq_false_iff_not]
    omega
  have hr := scrape_source_core_not_due "rss" km now fetch cfg db results hfind hgate
  have hr' := scrape_source_core_not_due "rss" km now fetch' cfg db results hfind hgate
  have hw := scrape_source_core_not_due "scrape" km now fetch cfg db results hfind hgate
  have hw' := scrape_source_core_not_due "scrape" km now fetch' cfg db results hfind hgate
  unfold scrape_rss_source scrape_web_source
  rw [hr, hw, hr', hw']
  refine ⟨rfl, rfl, ?_, rfl, rfl, rfl, rfl, ?_, rfl, rfl⟩ <;>
    (rw [show ({ db with sources := db.sources.map (fun t =>
          if t.identifier == cfg.identifier then refresh_source cfg s0 else t) } :
        ScraperDB).sources = db.sources.map (fun t =>
          if t.identifier == cfg.identifier then refresh_source cfg s0 else t) from rfl,
      find?_after_refresh db cfg hfind]
     rfl)

theorem frequency_gate_no_op_witness :
    ([⟨2, "src2", "S Two", "https://s2", some "https://s2/feed", 1800, true,
        some 1000, some 1000, 0, 0⟩] : List SourceRec).find?
      (fun s => s.identifier == "src2") =
      some ⟨2, "src2", "S Two", "https://s2", some "https://s2/feed", 1800, true,
        some 1000, some 1000, 0, 0⟩
    ∧ (⟨2, "src2", "S Two", "https://s2", some "https://s2/feed", 1800, true,
        some 1000, some 1000, 0, 0⟩ : SourceRec).last_check = some 1000
    ∧ (1100 : ℤ) - 1000 < 1800
    ∧ (scrape_rss_source (fun _ _ => false) 1100
        (.success [⟨"https://a", "T", "S", "C", none, [], "h1", none, none⟩])
        ⟨"src2", "S Two", "https://s2", some "https://s2/feed", 1800, true⟩
        ⟨[⟨2, "src2", "S Two", "https://s2", some "https://s2/feed", 1800, true,
          some 1000, some 1000, 0, 0⟩], [], []⟩
        ⟨0, 0, 0, []⟩).1.source_checks = [] := by
  refine ⟨by decide, rfl, by decide, ?_⟩
  have h := (frequency_gate_no_op (fun _ _ => false) 1100 1000
    (.success [⟨"https://a", "T", "S", "C", none, [], "h1", none, none⟩]) (.failure "x")
    ⟨"src2", "S Two", "https://s2", some "https://s2/feed", 1800, true⟩
    ⟨[⟨2, "src2", "S Two", "https://s2", some "https://s2/feed", 1800, true,
      some 1000, some 1000, 0, 0⟩], [], []⟩
    ⟨0, 0, 0, []⟩
    ⟨2, "src2", "S Two", "https://s2", some "https://s2/feed", 1800, true,
      some 1000, some 1000, 0, 0⟩ (by decide) rfl (by decide)).1
  exact h

theorem scrape_source_core_checks_due (method : String) (km : String → String → Bool)
    (now : ℤ) (fetch : FetchResult) (cfg : SourceConfig) (db : ScraperDB)
    (results : ScrapeResults) {s0 : SourceRec}
    (hfind : db.sources.find? (fun s => s.identifier == cfg.identifier) = some s0)
    (hgate : should_scrape now s0 cfg.check_frequency = true) :
    (scrape_source_core method km now fetch cfg db results).1.source_checks.length =
      db.source_checks.length + 1 := by
  cases fetch with
  | failure err =>
    rw [scrape_source_core_due_failure method km now err cfg db results hfind hgate]
    simp [update_source, record_source_check]
  | success arts =>
    rw [scrape_source_core_due_success method km now arts cfg db results hfind hgate]
    simp only [record_source_check, update_source]
    rw [(save_articles_loop_frame km arts s0.id _ 0 _).2]
    simp

/-- C2 (amended): the poll-one-named-source operation routes to the same
per-source scrape functions as the poll-all loop and therefore DOES
consult the frequency due-check gate: for an active configured source
whose elapsed time since `last_check` is below `check_frequency`, it
performs no fetch (its outcome is independent of the fetch result) and
records no SourceCheck; when the source is due, exactly one SourceCheck is
appended. -/
theorem scrape_source_by_identifier_gate (km : String → String → Bool) (now : ℤ)
    (fetch : FetchResult) (configs : List SourceConfig) (identifier : String)
    (db : ScraperDB) (cfg : SourceConfig) (s0 : SourceRec)
    (hcfg : configs.find? (fun c => c.identifier == identifier) = some cfg)
    (hactive : cfg.active = true)
    (hfind : db.sources.find? (fun s => s.identifier == cfg.identifier) = some s0) :
    (should_scrape now s0 cfg.check_frequency = false →
      (scrape_source_by_identifier km now fetch configs identifier db).1.source_checks =
        db.source_checks ∧
      ∀ fetch' : FetchResult,
        scrape_source_by_identifier km now fetch configs identifier db =
          scrape_source_by_identifier km now fetch' configs identifier db)
    ∧ (should_scrape now s0 cfg.check_frequency = true →
      (scrape_source_by_identifier km now fetch configs identifier db).1.source_checks.length =
        db.source_checks.length + 1) := by
  unfold scrape_source_by_identifier
  rw [hcfg]
  simp only [hactive, not_true, if_neg, Bool.false_eq_true, not_false_iff, ite_false]
  constructor
  · intro hgate
    by_cases hrss : cfg.rss_url.isSome
    · simp only [hrss, if_true]
      unfold scrape_rss_source
      rw [scrape_source_core_not_due "rss" km now fetch cfg db ⟨0, 0, 0, []⟩ hfind hgate]
      refine ⟨rfl, ?_⟩
      intro fetch'
      rw [scrape_source_core_not_due "rss" km now fetch' cfg db ⟨0, 0, 0, []⟩ hfind hgate]
    · simp only [hrss, if_false]
      unfold scrape_web_source
      rw [scrape_source_core_not_due "scrape" km now fetch cfg db ⟨0, 0, 0, []⟩ hfind hgate]
      refine ⟨by simp, ?_⟩
      intro fetch'
      rw [scrape_source_core_not_due "scrape" km now fetch' cfg db ⟨0, 0, 0, []⟩ hfind hgate]
      simp
  · intro hgate
    by_cases hrss : cfg.rss_url.isSome
    · simp only [hrss, if_true]
      unfold scrape_rss_source
      exact scrape_source_core_checks_due "rss" km now fetch cfg db ⟨0, 0, 0, []⟩ hfind hgate
    · simp only [hrss, if_false]
      unfold scrape_web_source
      exact scrape_source_core_checks_due "scrape" km now fetch cfg db ⟨0, 0, 0, []⟩ hfind hgate

/-- C2 (counterexample): an active configured source (`src3`, frequency
1800 s) last checked 100 seconds ago.  Invoking the poll-one-named-source
operation records NO SourceCheck, and its entire outcome is identical
whether the would-be fetch succeeds with an article or fails — the fetch
is never performed, contradicting the claim that this operation never
consults the due-check gate. -/
theorem scrape_source_by_identifier_counterexample :
    (scrape_source_by_identifier (fun _ _ => false) 1100
        (.success [⟨"https://a", "T", "S", "C", none, [], "h1", none, none⟩])
        [⟨"src3", "S Three", "https://s3", some "https://s3/feed", 1800, true⟩] "src3"
        ⟨[⟨3, "src3", "S Three", "https://s3", some "https://s3/feed", 1800, true,
          some 1000, some 1000, 0, 0⟩], [], []⟩).1.source_checks = []
    ∧ scrape_source_by_identifier (fun _ _ => false) 1100
        (.success [⟨"https://a", "T", "S", "C", none, [], "h1", none, none⟩])
        [⟨"src3", "S Three", "https://s3", some "https://s3/feed", 1800, true⟩] "src3"
        ⟨[⟨3, "src3", "S Three", "https://s3", some "https://s3/feed", 1800, true,
          some 1000, some 1000, 0, 0⟩], [], []⟩ =
      scrape_source_by_identifier (fun _ _ => false) 1100 (.failure "network down")
        [⟨"src3", "S Three", "https://s3", some "https://s3/feed", 1800, true⟩] "src3"
        ⟨[⟨3, "src3", "S Three", "https://s3", some "https://s3/feed", 1800, true,
          some 1000, some 1000, 0, 0⟩], [], []⟩
    ∧ (scrape_source_by_identifier (fun _ _ => false) 1100
        (.success [⟨"https://a", "T", "S", "C", none, [], "h1", none, none⟩])
        [⟨"src3", "S Three", "https://s3", some "https://s3/feed", 1800, true⟩] "src3"
        ⟨[⟨3, "src3", "S Three", "https://s3", some "https://s3/feed", 1800, true,
          some 1000, some 1000, 0, 0⟩], [], []⟩).2.success = true := by
  refine ⟨by decide, by decide, by decide⟩

theorem scrape_source_by_identifier_gate_witness :
    ([⟨"src4", "S Four", "https://s4", some "https://s4/feed", 1800, true⟩] :
        List SourceConfig).find? (fun c => c.identifier == "src4") =
      some ⟨"src4", "S Four", "https://s4", some "https://s4/feed", 1800, true⟩
    ∧ (⟨"src4", "S Four", "https://s4", some "https://s4/feed", 1800, true⟩ :
        SourceConfig).active = true
    ∧ ([⟨4, "src4", "S Four", "https://s4", some "https://s4/feed", 1800, true,
        none, none, 0, 0⟩] : List SourceRec).find? (fun s => s.identifier == "src4") =
      some ⟨4, "src4", "S Four", "https://s4", some "https://s4/feed", 1800, true,
        none, none, 0, 0⟩
    ∧ should_scrape 1100 ⟨4, "src4", "S Four", "https://s4", some "https://s4/feed", 1800,
        true, none, none, 0, 0⟩ 1800 = true
    ∧ (scrape_source_by_identifier (fun _ _ => false) 1100 (.failure "boom")
        [⟨"src4", "S Four", "https://s4", some "https://s4/feed", 1800, true⟩] "src4"
        ⟨[⟨4, "src4", "S Four", "https://s4", some "https://s4/feed", 1800, true,
          none, none, 0, 0⟩], [], []⟩).1.source_checks.length = 1 := by
  refine ⟨by decide, rfl, by decide, by decide, ?_⟩
  exact (scrape_source_by_identifier_gate (fun _ _ => false) 1100 (.failure "boom")
    [⟨"src4", "S Four", "https://s4", some "https://s4/feed", 1800, true⟩] "src4"
    ⟨[⟨4, "src4", "S Four", "https://s4", some "https://s4/feed", 1800, true,
      none, none, 0, 0⟩], [], []⟩
    ⟨"src4", "S Four", "https://s4", some "https://s4/feed", 1800, true⟩
    ⟨4, "src4", "S Four", "https://s4", some "https://s4/feed", 1800, true,
      none, none, 0, 0⟩ (by decide) rfl (by decide)).2 (by decide)

/-- C5 (counterexample): a store that already contains an article with the
candidate's fingerprint `h1`.  The FIRST submission of the candidate
already returns `false` (duplicate skip) and leaves the store unchanged,
refuting the claim that from any store state the first call returns
`new=true` and persists the candidate. -/
theorem save_article_duplicate_state_counterexample :
    save_article (fun _ _ => false) ⟨"https://a", "T", "S", "C", none, [], "h1", none, none⟩ 1
      ⟨[], [⟨1, "https://b", "T0", "S0", "C0", none, [], "h1", 2, none, none, 0, [], [], [], [], "scraped"⟩], []⟩ =
      .ok (false,
        ⟨[], [⟨1, "https://b", "T0", "S0", "C0", none, [], "h1", 2, none, none, 0, [], [], [], [], "scraped"⟩], []⟩) := by
  rfl

/-- C5 (amended): deduplicated persistence is idempotent from any store
state NOT already containing the candidate's fingerprint: the first
`_save_article` call returns `true` and appends exactly the scored article
row, the second call with the same candidate returns `false` (a duplicate
skip, not an error) and leaves the store unchanged, and afterwards exactly
one stored article carries that fingerprint. -/
theorem save_article_idempotent (km : String → String → Bool) (ad : ArticleData)
    (sid : ℕ) (db : ScraperDB)
    (habs : db.articles.filter (fun a => a.content_hash == ad.content_hash) = []) :
    (new_article km ad sid).content_hash = ad.content_hash
    ∧ save_article km ad sid db =
        .ok (true, { db with articles := db.articles ++ [new_article km ad sid] })
    ∧ save_article km ad sid { db with articles := db.articles ++ [new_article km ad sid] } =
        .ok (false, { db with articles := db.articles ++ [new_article km ad sid] })
    ∧ (({ db with articles := db.articles ++ [new_article km ad sid] } : ScraperDB).articles.filter
        (fun a => a.content_hash == ad.content_hash)).length = 1 := by
  have hfil : ({ db with articles := db.articles ++ [new_article km ad sid] } :
      ScraperDB).articles.filter (fun a => a.content_hash == ad.content_hash) =
      [new_article km ad sid] := by
    show (db.articles ++ [new_article km ad sid]).filter
      (fun a => a.content_hash == ad.content_hash) = [new_article km ad sid]
    rw [List.filter_append, habs]
    simp [new_article]
  refine ⟨rfl, ?_, ?_, ?_⟩
  · unfold save_article
    rw [habs]
    rfl
  · unfold save_article
    rw [hfil]
    rfl
  · rw [hfil]
    rfl

theorem save_article_idempotent_witness :
    ([] : List ArticleRec).filter (fun a => a.content_hash == "h9") = []
    ∧ save_article (fun _ _ => false) ⟨"https://w", "Title", "Summ", "wmic.exe", none, [], "h9", none, none⟩ 7
        ⟨[], [], []⟩ =
      .ok (true, ⟨[], [new_article (fun _ _ => false)
        ⟨"https://w", "Title", "Summ", "wmic.exe", none, [], "h9", none, none⟩ 7], []⟩)
    ∧ save_article (fun _ _ => false) ⟨"https://w", "Title", "Summ", "wmic.exe", none, [], "h9", none, none⟩ 7
        ⟨[], [new_article (fun _ _ => false)
          ⟨"https://w", "Title", "Summ", "wmic.exe", none, [], "h9", none, none⟩ 7], []⟩ =
      .ok (false, ⟨[], [new_article (fun _ _ => false)
        ⟨"https://w", "Title", "Summ", "wmic.exe", none, [], "h9", none, none⟩ 7], []⟩) := by
  have h := save_article_idempotent (fun _ _ => false)
    ⟨"https://w", "Title", "Summ", "wmic.exe", none, [], "h9", none, none⟩ 7 ⟨[], [], []⟩ rfl
  exact ⟨rfl, h.2.1, h.2.2.1⟩

/-! ## Content chunker
(`src/cti_scraper/services/content_chunker.py`)

The three technical-content detection regexes (`CODE_BLOCK_PATTERN` as a
detector, `COMMAND_PATTERN`, `IOC_PATTERN`) only set boolean metadata
flags on finished chunks and are abstracted as `String → Bool` oracles;
everything that influences the chunk texts — whitespace normalization,
code-block protection (the `CODE_BLOCK_PATTERN` substitution), paragraph
splitting, the greedy accumulation loop, sentence-overlap seeding and
placeholder restoration — is translated from the source.  All recursions
are structural (or fuel-counted by the input length) so that the kernel
can evaluate the chunker on concrete inputs. -/

/-- `Chunk` dataclass. -/
structure Chunk where
  index : ℕ
  text : String
  start_position : ℤ
  end_position : ℤ
  word_count : ℕ
  sentence_count : ℕ
  contains_code : Bool
  contains_command : Bool
  contains_ioc : Bool
deriving DecidableEq

/-- The four `ContentChunker.__init__` parameters
(defaults 150 / 300 / 500 / 1). -/
structure ContentChunker where
  min_chunk_words : ℕ
  target_chunk_words : ℕ
  max_chunk_words : ℕ
  overlap_sentences : ℕ
deriving DecidableEq

def default_chunker : ContentChunker := ⟨150, 300, 500, 1⟩

/-- Python `len(text.split())`. -/
def count_words (text : String) : ℕ := (pyWords text).length

def emit_nl (p : ℕ) : List Char := if 3 ≤ p then ['\n', '\n'] else List.replicate p '\n'

/-- Collapse every maximal run of three or more newlines to two
(`re.sub(r'\n{3,}', '\n\n', text)`); `pending` counts the newline run in
progress. -/
def collapse_nl : List Char → ℕ → List Char
  | [], pending => emit_nl pending
  | c :: rest, pending =>
    if c = '\n' then collapse_nl rest (pending + 1)
    else emit_nl pending ++ (c :: collapse_nl rest 0)

def emit_sp (p : ℕ) : List Char := if 2 ≤ p then [' '] else List.replicate p ' '

/-- Collapse every maximal run of two or more spaces to one
(`re.sub(r' {2,}', ' ', text)`). -/
def collapse_sp : List Char → ℕ → List Char
  | [], pending => emit_sp pending
  | c :: rest, pending =>
    if c = ' ' then collapse_sp rest (pending + 1)
    else emit_sp pending ++ (c :: collapse_sp rest 0)

/-- Embedding of `ContentChunker._normalize_text`. -/
def normalize_text (text : String) : String :=
  pyStrip (String.mk (collapse_sp (collapse_nl text.data 0) 0))

def backquote : Char := Char.ofNat 96

/-- Offset of the first triple backquote in the character list. -/
def find_triple : List Char → Option ℕ
  | [] => none
  | c :: rest =>
    if c = backquote ∧ rest.take 2 = [backquote, backquote] then some 0
    else (find_triple rest).map (· + 1)

/-- Offset of the first backquote in the character list. -/
def find_backtick : List Char → Option ℕ
  | [] => none
  | c :: rest => if c = backquote then some 0 else (find_backtick rest).map (· + 1)

/-- Left-to-right scan carrying out the `CODE_BLOCK_PATTERN` substitution
of `_extract_code_blocks`: a lazily closed triple-backquote block is
preferred (as the regex alternation does), otherwise a single-backquote
span with a non-empty backquote-free body; each match is replaced by its
`[[CODE_BLOCK_i]]` placeholder and collected.  The fuel is the input
length; every step consumes at least one character. -/
def extract_code_aux : ℕ → List Char → List String → List String × List Char
  | 0, cs, blocks => (blocks, cs)
  | _ + 1, [], blocks => (blocks, [])
  | fuel + 1, c :: rest, blocks =>
    if c = backquote ∧ rest.take 2 = [backquote, backquote] then
      match find_triple (rest.drop 2) with
      | some i =>
        let body := (rest.drop 2).take i
        let block := String.mk (List.replicate 3 backquote ++ body ++ List.replicate 3 backquote)
        let placeholder := "[[CODE_BLOCK_" ++ toString blocks.length ++ "]]"
        let r := extract_code_aux fuel ((rest.drop 2).drop (i + 3)) (blocks ++ [block])
        (r.1, placeholder.data ++ r.2)
      | none =>
        let r := extract_code_aux fuel rest blocks
        (r.1, c :: r.2)
    else if c = backquote then
      match find_backtick rest with
      | some i =>
        if 1 ≤ i then
          let block := String.mk (backquote :: rest.take i ++ [backquote])
          let placeholder := "[[CODE_BLOCK_" ++ toString blocks.length ++ "]]"
          let r := extract_code_aux fuel (rest.drop (i + 1)) (blocks ++ [block])
          (r.1, placeholder.data ++ r.2)
        else
          let r := extract_code_aux fuel rest blocks
          (r.1, c :: r.2)
      | none =>
        let r := extract_code_aux fuel rest blocks
        (r.1, c :: r.2)
    else
      let r := extract_code_aux fuel rest blocks
      (r.1, c :: r.2)

/-- Embedding of `ContentChunker._extract_code_blocks`. -/
def extract_code_blocks (text : String) : List String × String :=
  let r := extract_code_aux (text.data.length + 1) text.data []
  (r.1, String.mk r.2)

/-- Python `text.split('\n\n')` (leftmost, non-overlapping). -/
def split_nn_aux : List Char → List Char → List (List Char)
  | [], acc => [acc.reverse]
  | '\n' :: '\n' :: rest, acc => acc.reverse :: split_nn_aux rest []
  | c :: rest, acc => split_nn_aux rest (c :: acc)

/-- Embedding of `ContentChunker._split_paragraphs`. -/
def split_paragraphs (text : String) : List String :=
  ((split_nn_aux text.data []).map (fun cs => pyStrip (String.mk cs))).filter
    (fun p => p ≠ "")

def sentence_ender (c : Char) : Bool := c = '.' ∨ c = '!' ∨ c = '?'

def upper_az (c : Char) : Bool := decide (65 ≤ c.toNat ∧ c.toNat ≤ 90)

/-- Offset of the last newline in a character list. -/
def last_nl (run : List Char) : Option ℕ :=
  (run.reverse.findIdx? (fun c => c = '\n')).map (fun i => run.length - 1 - i)

/-- Scan for `re.split(r'(?<=[.!?])\s+(?=[A-Z])|(?<=[.!?])\s*\n', text)`:
after a sentence-ending character, either a whole whitespace run followed
by an uppercase letter is consumed, or (second alternative) the
whitespace prefix up to and including its last newline.  `prev` is the
character preceding the scan position (for the lookbehind); the fuel is
the input length. -/
def split_sentences_aux : ℕ → Option Char → List Char → List Char → List (List Char)
  | 0, _, cs, acc => [acc.reverse ++ cs]
  | _ + 1, _, [], acc => [acc.reverse]
  | fuel + 1, prev, c :: rest, acc =>
    let prevEnder := match prev with
      | some p => sentence_ender p
      | none => false
    if prevEnder then
      let run := (c :: rest).takeWhile (fun x => pyIsSpace x)
      let afterRun := (c :: rest).drop run.length
      let headUpper : Bool := match afterRun.head? with
        | some u => upper_az u
        | none => false
      if 1 ≤ run.length ∧ headUpper = true then
        acc.reverse :: split_sentences_aux fuel run.getLast? ((c :: rest).drop run.length) []
      else
        match last_nl run with
        | some i =>
          acc.reverse :: split_sentences_aux fuel (some '\n') ((c :: rest).drop (i + 1)) []
        | none => split_sentences_aux fuel (some c) rest (c :: acc)
    else split_sentences_aux fuel (some c) rest (c :: acc)

/-- Embedding of `ContentChunker._split_sentences`. -/
def split_sentences (text : String) : List String :=
  ((split_sentences_aux (text.data.length + 1) none text.data []).map
    (fun cs => pyStrip (String.mk cs))).filter (fun s => s ≠ "")

/-- Embedding of `ContentChunker._get_overlap_text`. -/
def get_overlap_text (ck : ContentChunker) (text : String) : String :=
  if ck.overlap_sentences = 0 then ""
  else
    let sentences := split_sentences text
    if sentences.length ≤ ck.overlap_sentences then ""
    else
      String.intercalate " "
        (sentences.drop (sentences.length - ck.overlap_sentences)) ++ " "

/-- Embedding of `ContentChunker._create_chunk` (detection flags default
to `false` as in the dataclass; `chunk_article` sets them afterwards). -/
def create_chunk (index : ℕ) (text : String) (start_position : ℤ) : Chunk :=
  let text := pyStrip text
  let sentences := split_sentences text
  { index := index
    text := text
    start_position := start_position
    end_position := start_position + text.length
    word_count := count_words text
    sentence_count := sentences.length
    contains_code := false
    contains_command := false
    contains_ioc := false }

/-- Loop state of `_build_chunks`. -/
structure BuildState where
  chunks : List Chunk
  current_text : String
  current_start : ℤ
  position : ℤ
deriving DecidableEq

/-- One iteration of the `for paragraph in paragraphs` loop of
`_build_chunks`: a forced split when the paragraph would push past the
maximum, then the position update, then the target-size close. -/
def build_chunks_step (ck : ContentChunker) (st : BuildState) (paragraph : String) :
    BuildState :=
  let paragraph_words := count_words paragraph
  let current_words := count_words st.current_text
  let st1 :=
    if ck.max_chunk_words < current_words + paragraph_words ∧ st.current_text ≠ "" then
      let chunk := create_chunk st.chunks.length st.current_text st.current_start
      let overlap_text := get_overlap_text ck st.current_text
      { st with
        chunks := st.chunks ++ [chunk]
        current_text := overlap_text ++ paragraph ++ "\n\n"
        current_start := st.position - overlap_text.length }
    else { st with current_text := st.current_text ++ paragraph ++ "\n\n" }
  let st2 := { st1 with position := st1.position + paragraph.length + 2 }
  let current_words2 := count_words st2.current_text
  if ck.target_chunk_words ≤ current_words2 then
    if ck.min_chunk_words ≤ current_words2 then
      let chunk := create_chunk st2.chunks.length st2.current_text st2.current_start
      let overlap_text := get_overlap_text ck st2.current_text
      { st2 with
        chunks := st2.chunks ++ [chunk]
        current_text := overlap_text
        current_start := st2.position - overlap_text.length }
    else st2
  else st2

/-- Embedding of `ContentChunker._build_chunks`. -/
def build_chunks (ck : ContentChunker) (paragraphs : List String)
    (title : String := "") : List Chunk :=
  let st0 : BuildState :=
    if title ≠ "" then ⟨[], title ++ "\n\n", 0, (title ++ "\n\n").length⟩
    else ⟨[], "", 0, 0⟩
  let st := paragraphs.foldl (build_chunks_step ck) st0
  if pyStrip st.current_text ≠ "" then
    st.chunks ++ [create_chunk st.chunks.length st.current_text st.current_start]
  else st.chunks

/-- Python `text.replace(pat, rep)` (all occurrences, left to right;
`pat` is assumed non-empty, as the placeholders are). -/
def replace_all_aux : ℕ → List Char → List Char → List Char → List Char
  | 0, cs, _, _ => cs
  | _ + 1, [], _, _ => []
  | fuel + 1, c :: rest, pat, rep =>
    if (c :: rest).take pat.length = pat ∧ pat ≠ [] then
      rep ++ replace_all_aux fuel ((c :: rest).drop pat.length) pat rep
    else c :: replace_all_aux fuel rest pat rep

def pyReplace (s pat rep : String) : String :=
  String.mk (replace_all_aux (s.data.length + 1) s.data pat.data rep.data)

/-- Embedding of `ContentChunker._restore_code_blocks`. -/
def restore_code_blocks (chunks : List Chunk) (code_blocks : List String) :
    List Chunk :=
  chunks.map (fun chunk =>
    { chunk with text := (code_blocks.enum.foldl
        (fun t p => pyReplace t ("[[CODE_BLOCK_" ++ toString p.1 ++ "]]") p.2)
        chunk.text) })

/-- Embedding of `ContentChunker.chunk_article`; the three detection
patterns are the oracle parameters. -/
def chunk_article (ck : ContentChunker)
    (code_pattern command_pattern ioc_pattern : String → Bool)
    (content : String) (title : String := "") : List Chunk :=
  if content = "" ∨ pyStrip content = "" then []
  else
    let content := normalize_text content
    let ecb := extract_code_blocks content
    let code_blocks := ecb.1
    let content_with_placeholders := ecb.2
    let paragraphs := split_paragraphs content_with_placeholders
    let chunks := build_chunks ck paragraphs title
    let chunks := restore_code_blocks chunks code_blocks
    chunks.map (fun chunk =>
      { chunk with
        contains_code := code_pattern chunk.text
        contains_command := command_pattern chunk.text
        contains_ioc := ioc_pattern chunk.text })

/-- C3: evaluation of the chunker at a failing input.  With
`min_chunk_words = 3, target_chunk_words = 5, max_chunk_words = 8` (the
same code path fires with the 150/300/500 defaults on a 5-word paragraph
followed by a 501-word paragraph), the content
`"a b\n\nw w w w w w w w w"` produces TWO chunks of word counts
`[2, 9]`: the first, non-final chunk has 2 words, strictly below
`min_chunk_words` — the forced-split branch of `_build_chunks` (taken when
the next paragraph would exceed `max_chunk_words`) closes the current
chunk without checking the minimum, contradicting the documented
`min_chunk_words` guarantee. -/
theorem chunk_article_min_words_violation :
    ((chunk_article ⟨3, 5, 8, 1⟩ (fun _ => false) (fun _ => false) (fun _ => false)
        "a b\n\nw w w w w w w w w" "").map (fun c => c.word_count)) = [2, 9]
    ∧ ((chunk_article ⟨3, 5, 8, 1⟩ (fun _ => false) (fun _ => false) (fun _ => false)
        "a b\n\nw w w w w w w w w" "").length = 2)
    ∧ 2 < (⟨3, 5, 8, 1⟩ : ContentChunker).min_chunk_words := by
  refine ⟨by decide, by decide, by decide⟩

/-! ## Web-page article extraction
(`src/cti_scraper/services/web_scraper.py`)

The parsed HTML document is modelled as a tree of element and text nodes
(`HNode` / `HForest`, a mutual pair so that all tree recursions are
structural and kernel-evaluable).  BeautifulSoup's tag-name and
class-predicate searches (`find` / `find_all`, document preorder over the
descendants) are implemented on the tree; the CSS-selector engine used by
`select` / `select_one` (external soupsieve) is abstracted as a parameter
`sel`, as are `urljoin` (urllib) and `dateutil` date parsing. -/

mutual
inductive HNode where
  | elem : String → List (String × String) → HForest → HNode
  | text : String → HNode
deriving DecidableEq

inductive HForest where
  | nil : HForest
  | cons : HNode → HForest → HForest
deriving DecidableEq
end

mutual
/-- All raw descendant text-node strings, in document order
(BeautifulSoup `_all_strings`). -/
def HNode.strings : HNode → List String
  | .text s => [s]
  | .elem _ _ children => HForest.strings children

def HForest.strings : HForest → List String
  | .nil => []
  | .cons n rest => HNode.strings n ++ HForest.strings rest
end

/-- BeautifulSoup `get_text(strip=True)`: stripped fragments, empties
skipped, joined with no separator. -/
def get_text_strip (n : HNode) : String :=
  String.join (((HNode.strings n).map pyStrip).filter (fun s => s ≠ ""))

mutual
/-- All element descendants of a node (self excluded), document preorder —
the iteration domain of BeautifulSoup `find` / `find_all`. -/
def HNode.descendants : HNode → List HNode
  | .text _ => []
  | .elem _ _ children => HForest.elements children

def HForest.elements : HForest → List HNode
  | .nil => []
  | .cons n rest =>
    (match n with
      | .elem _ _ _ => [n]
      | .text _ => []) ++ HNode.descendants n ++ HForest.elements rest
end

mutual
/-- Element descendants paired with their immediate parent (for
BeautifulSoup's `.parent` navigation in `_extract_blog_posts`). -/
def HNode.descendants_with_parent : HNode → List (HNode × HNode)
  | .text _ => []
  | .elem t a children => HForest.elements_with_parent (.elem t a children) children

def HForest.elements_with_parent : HNode → HForest → List (HNode × HNode)
  | _, .nil => []
  | par, .cons n rest =>
    (match n with
      | .elem _ _ _ => [(n, par)]
      | .text _ => []) ++ HNode.descendants_with_parent n ++
      HForest.elements_with_parent par rest
end

def HNode.tag_is (n : HNode) (t : String) : Bool :=
  match n with
  | .elem tag _ _ => tag == t
  | .text _ => false

/-- Attribute lookup (`Tag.get`). -/
def HNode.attr (n : HNode) (key : String) : Option String :=
  match n with
  | .elem _ attrs _ => (attrs.find? (fun kv => kv.1 == key)).map (fun kv => kv.2)
  | .text _ => none

/-- BeautifulSoup `find_all(pred)` over the descendants. -/
def HNode.find_all_p (n : HNode) (p : HNode → Bool) : List HNode :=
  n.descendants.filter p

/-- BeautifulSoup `find(pred)`: first matching descendant. -/
def HNode.find_p (n : HNode) (p : HNode → Bool) : Option HNode :=
  (n.find_all_p p).head?

/-- Substring test over character lists. -/
def str_contains_aux : List Char → List Char → Bool
  | [], pat => pat.isEmpty
  | c :: rest, pat => decide ((c :: rest).take pat.length = pat) || str_contains_aux rest pat

/-- Python `pat in s`. -/
def str_contains (s pat : String) : Bool := str_contains_aux s.data pat.data

/-- The `class_=lambda x: x and any(d in str(x).lower() for d in ds)`
filters: a truthy class attribute whose lowered string form contains one
of the given fragments (the fragments contain no quote or comma, so
containment in `str(class_list)` coincides with containment in the raw
class string). -/
def class_contains (n : HNode) (ds : List String) : Bool :=
  match n.attr "class" with
  | none => false
  | some x => if x = "" then false else ds.any (fun d => str_contains (pyLower x) d)

/-- The optional CSS-selector configuration of
`WebScraperService._extract_with_selectors`. -/
structure SelectorConfig where
  article_selector : Option String
  title_selector : Option String
  link_selector : Option String
  date_selector : Option String
  summary_selector : Option String
deriving DecidableEq

/-- Embedding of `_parse_date` around the external `dateutil` parser
(`parseDate` oracle): a falsy date string yields no timestamp. -/
def parse_date (parseDate : String → Option ℤ) (date_str : String) : Option ℤ :=
  if date_str = "" then none else parseDate date_str

/-- `date_elem.get("datetime") or date_elem.get_text(strip=True)`. -/
def date_string_of (de : HNode) : String :=
  match de.attr "datetime" with
  | some d => if d = "" then get_text_strip de else d
  | none => get_text_strip de

/-- One `for container in article_containers` iteration of
`_extract_with_selectors`; `none` models `continue` / the final
`if title and article_url` guard failing. -/
def extract_selectors_one (urljoin : String → String → String)
    (parseDate : String → Option ℤ) (sel : HNode → String → List HNode)
    (config : SelectorConfig) (base_url : String) (container : HNode) :
    Option ArticleData :=
  let title_elem := (sel container (config.title_selector.getD "h2")).head?
  let title : Option String := title_elem.map (fun e => get_text_strip e)
  match (sel container (config.link_selector.getD "a")).head? with
  | none => none
  | some link_elem =>
    match link_elem.attr "href" with
    | none => none
    | some href =>
      if href = "" then none
      else
        let article_url := urljoin base_url href
        let published_date :=
          match (sel container (config.date_selector.getD "time")).head? with
          | none => none
          | some de => parse_date parseDate (date_string_of de)
        let summary := match (sel container (config.summary_selector.getD "p")).head? with
          | some se => get_text_strip se
          | none => ""
        match title with
        | some t =>
          if t ≠ "" ∧ article_url ≠ "" then
            some ⟨article_url, t, summary, summary, published_date, [],
              generate_content_hash t article_url summary, none, some base_url⟩
          else none
        | none => none

/-- Embedding of `WebScraperService._extract_with_selectors`. -/
def extract_with_selectors (urljoin : String → String → String)
    (parseDate : String → Option ℤ) (sel : HNode → String → List HNode)
    (soup : HNode) (base_url : String) (config : SelectorConfig) :
    List ArticleData :=
  (sel soup (config.article_selector.getD "article")).filterMap
    (extract_selectors_one urljoin parseDate sel config base_url)

/-- Embedding of `WebScraperService._extract_from_article_tag`. -/
def extract_from_article_tag (urljoin : String → String → String)
    (parseDate : String → Option ℤ) (article_tag : HNode) (base_url : String) :
    Option ArticleData :=
  match article_tag.find_p (fun n =>
      n.tag_is "h1" || n.tag_is "h2" || n.tag_is "h3") with
  | none => none
  | some title_elem =>
    let title := get_text_strip title_elem
    match (title_elem.find_p (fun n => n.tag_is "a")).orElse
        (fun _ => article_tag.find_p (fun n => n.tag_is "a")) with
    | none => none
    | some link_elem =>
      match link_elem.attr "href" with
      | none => none
      | some href =>
        if href = "" then none
        else
          let article_url := urljoin base_url href
          let published_date :=
            match (article_tag.find_p (fun n => n.tag_is "time")).orElse
                (fun _ => article_tag.find_p (fun n =>
                  class_contains n ["date", "time", "published"])) with
            | none => none
            | some de => parse_date parseDate (date_string_of de)
          let summary :=
            match article_tag.find_p (fun n =>
                class_contains n ["summary", "excerpt", "description"]) with
            | some se => get_text_strip se
            | none =>
              match article_tag.find_p (fun n => n.tag_is "p") with
              | some pe => get_text_strip pe
              | none => ""
          some ⟨article_url, title, summary, summary, published_date, [],
            generate_content_hash title article_url summary, none, some base_url⟩

/-- One heading iteration of `_extract_blog_posts` (the heading paired
with its parent). -/
def extract_blog_post_one (urljoin : String → String → String)
    (parseDate : String → Option ℤ) (base_url : String) (pr : HNode × HNode) :
    Option ArticleData :=
  match pr.1.find_p (fun n => n.tag_is "a") with
  | none => none
  | some link =>
    match link.attr "href" with
    | none => none
    | some href =>
      if href = "" then none
      else
        let title := get_text_strip pr.1
        let article_url := urljoin base_url href
        let published_date :=
          match pr.2.find_p (fun n => n.tag_is "time") with
          | none => none
          | some de => parse_date parseDate (date_string_of de)
        let summary := match pr.2.find_p (fun n => n.tag_is "p") with
          | some pe => get_text_strip pe
          | none => ""
        some ⟨article_url, title, summary, summary, published_date, [],
          generate_content_hash title article_url summary, none, some base_url⟩

/-- Embedding of `WebScraperService._extract_blog_posts`. -/
def extract_blog_posts (urljoin : String → String → String)
    (parseDate : String → Option ℤ) (soup : HNode) (base_url : String) :
    List ArticleData :=
  let headings := soup.descendants_with_parent.filter (fun pr =>
    (pr.1.tag_is "h2" || pr.1.tag_is "h3") && class_contains pr.1 ["post"])
  let headings := if headings.isEmpty then
      (soup.descendants_with_parent.filter (fun pr =>
        pr.1.tag_is "h2" || pr.1.tag_is "h3")).take 20
    else headings
  headings.filterMap (extract_blog_post_one urljoin parseDate base_url)

/-- Embedding of `WebScraperService._extract_generic`. -/
def extract_generic (urljoin : String → String → String)
    (parseDate : String → Option ℤ) (soup : HNode) (base_url : String) :
    List ArticleData :=
  let article_tags := (soup.find_all_p (fun n => n.tag_is "article")).take 20
  let articles := article_tags.filterMap
    (fun tag => extract_from_article_tag urljoin parseDate tag base_url)
  if articles.length = 0 then extract_blog_posts urljoin parseDate soup base_url
  else articles

theorem extract_selectors_one_some {urljoin : String → String → String}
    {parseDate : String → Option ℤ} {sel : HNode → String → List HNode}
    {config : SelectorConfig} {base_url : String} {container : HNode}
    {a : ArticleData}
    (h : extract_selectors_one urljoin parseDate sel config base_url container = some a) :
    a.title ≠ "" ∧ a.url ≠ "" ∧ ∃ href, href ≠ "" ∧ a.url = urljoin base_url href := by
  simp only [extract_selectors_one] at h
  split at h
  · exact absurd h (by simp)
  · split at h
    · exact absurd h (by simp)
    · split at h
      · exact absurd h (by simp)
      · split at h
        · split at h
          · rw [Option.some.injEq] at h
            subst h
            rename_i hguard
            refine ⟨hguard.1, hguard.2, _, ?_, rfl⟩
            assumption
          · exact absurd h (by simp)
        · exact absurd h (by simp)

theorem extract_from_article_tag_some {urljoin : String → String → String}
    {parseDate : String → Option ℤ} {article_tag : HNode} {base_url : String}
    {a : ArticleData}
    (h : extract_from_article_tag urljoin parseDate article_tag base_url = some a) :
    ∃ href, href ≠ "" ∧ a.url = urljoin base_url href := by
  simp only [extract_from_article_tag] at h
  split at h
  · exact absurd h (by simp)
  · split at h
    · exact absurd h (by simp)
    · split at h
      · exact absurd h (by simp)
      · split at h
        · exact absurd h (by simp)
        · rw [Option.some.injEq] at h
          subst h
          refine ⟨_, ?_, rfl⟩
          assumption

theorem extract_blog_post_one_some {urljoin : String → String → String}
    {parseDate : String → Option ℤ} {base_url : String} {pr : HNode × HNode}
    {a : ArticleData}
    (h : extract_blog_post_one urljoin parseDate base_url pr = some a) :
    ∃ href, href ≠ "" ∧ a.url = urljoin base_url href := by
  simp only [extract_blog_post_one] at h
  split at h
  · exact absurd h (by simp)
  · split at h
    · exact absurd h (by simp)
    · split at h
      · exact absurd h (by simp)
      · rw [Option.some.injEq] at h
        subst h
        refine ⟨_, ?_, rfl⟩
        assumption

/-- A page whose only `<article>` tag has an empty-text heading but a valid
link: the generic extraction strategies accept it. -/
def titleless_article_page : HNode :=
  .elem "html" [] (.cons (.elem "article" [] (.cons (.elem "h2" [] .nil)
    (.cons (.elem "a" [("href", "x")] (.cons (.text "link") .nil)) .nil))) .nil)

/-- C9 (amended): every candidate produced by the page scraper carries a
resolvable link (a non-empty `href` resolved by `urljoin` against the base
URL), and the configured-selectors strategy additionally guarantees a
non-empty title and a non-empty resolved URL; the article-tag and
heading/blog fallbacks enforce only the link requirement, not the
non-empty title. -/
theorem extract_candidates_link_title
    (urljoin : String → String → String) (parseDate : String → Option ℤ)
    (sel : HNode → String → List HNode) (config : SelectorConfig)
    (soup : HNode) (base_url : String) :
    (∀ a ∈ extract_with_selectors urljoin parseDate sel soup base_url config,
      a.title ≠ "" ∧ a.url ≠ "" ∧ ∃ href, href ≠ "" ∧ a.url = urljoin base_url href) ∧
    (∀ a ∈ extract_generic urljoin parseDate soup base_url,
      ∃ href, href ≠ "" ∧ a.url = urljoin base_url href) := by
  constructor
  · intro a hmem
    simp only [extract_with_selectors] at hmem
    obtain ⟨c, _, hc⟩ := List.mem_filterMap.1 hmem
    exact extract_selectors_one_some hc
  · intro a hmem
    simp only [extract_generic] at hmem
    split at hmem
    · simp only [extract_blog_posts] at hmem
      obtain ⟨pr, _, hpr⟩ := List.mem_filterMap.1 hmem
      exact extract_blog_post_one_some hpr
    · obtain ⟨tag, _, htag⟩ := List.mem_filterMap.1 hmem
      exact extract_from_article_tag_some htag

/-- Counterexample to C9 as stated: on `titleless_article_page` the
article-tag strategy of `_extract_generic` emits a candidate whose title
is empty — only the link is required by the fallback strategies. -/
theorem extract_generic_empty_title_counterexample :
    (extract_generic (fun b rel => b ++ rel) (fun _ => none)
        titleless_article_page "https://s/").map (fun a => (a.title, a.url))
      = [("", "https://s/x")] := by decide

set_option maxRecDepth 1000000 in
/-- Witness for C9: the concrete candidate extracted from
`titleless_article_page` (its content hash kernel-computed by the embedded
SHA-256) carries the non-empty href "x" resolved against the base URL. -/
theorem extract_candidates_link_title_witness :
    ∃ href, href ≠ "" ∧
      (⟨"https://s/x", "", "", "", none, [],
        "44dccab743b52e5702b777502d2dd364c26fc138fabb3c7e07ca39bbfbcfbd30",
        none, some "https://s/"⟩ : ArticleData).url = "https://s/" ++ href :=
  (extract_candidates_link_title (fun b rel => b ++ rel) (fun _ => none)
      (fun _ _ => []) ⟨none, none, none, none, none⟩
      titleless_article_page "https://s/").2
    ⟨"https://s/x", "", "", "", none, [],
      "44dccab743b52e5702b777502d2dd364c26fc138fabb3c7e07ca39bbfbcfbd30",
      none, some "https://s/"⟩
    (by decide)
